import Mathlib

/-!
Verification of the NoticeWala ingestion pipeline.

Shallow embedding of the Python sources under `backend/app`:
  - `services/ai_service.py` (structured extraction, validation, fallback,
    duplicate pair detection),
  - `crawlers/ai_enhanced_crawler.py` (AI update of stored announcements,
    duplicate marking),
  - `crawlers/improved_ssc_crawler.py` (deadline extraction, crawl loop,
    sample-data fallback, persistence),
  - `crawlers/crawler_manager.py` (ingestion coordinator).

Python JSON-ish values are modelled by `JVal`; dicts by association lists
with first-occurrence lookup and in-place update; machine floats by `ℚ`
(all constants in the sources are decimal fractions, exactly representable);
datetimes by integers; fallible calls by `Option`/`Except`.
-/

/-- Model of a Python JSON-like value (output of `json.loads`). -/
inductive JVal where
  | null : JVal
  | num : ℚ → JVal
  | str : String → JVal
  | bool : Bool → JVal
  | list : List JVal → JVal
  | obj : List (String × JVal) → JVal

/-- Python truthiness: `None`, `0`, `""`, `False`, `[]`, `{}` are falsy. -/
def JVal.truthy : JVal → Bool
  | .null => false
  | .num q => q != 0
  | .str s => s != ""
  | .bool b => b
  | .list l => !l.isEmpty
  | .obj kvs => !kvs.isEmpty

/-- `dict.get(k)`: first binding of the key (Python dicts have unique keys). -/
def jget (kvs : List (String × JVal)) (k : String) : Option JVal :=
  match kvs with
  | [] => none
  | (k', v) :: t => if k' = k then some v else jget t k

/-- `d[k] = v`: replace the first binding in place, else append. -/
def jset (kvs : List (String × JVal)) (k : String) (v : JVal) :
    List (String × JVal) :=
  match kvs with
  | [] => [(k, v)]
  | (k', v') :: t => if k' = k then (k, v) :: t else (k', v') :: jset t k v

/-- `d.update(other)`: fold the updates of `other` into `d` in order. -/
def jupdate (kvs other : List (String × JVal)) : List (String × JVal) :=
  other.foldl (fun acc kv => jset acc kv.1 kv.2) kvs

/-- `dict.get(k, default)`. -/
def jgetD (kvs : List (String × JVal)) (k : String) (d : JVal) : JVal :=
  (jget kvs k).getD d

/-- `isinstance(v, (int, float))`, with its value: Python `bool` is a
subclass of `int`, so `True` counts as `1` and `False` as `0`. -/
def JVal.asNum : JVal → Option ℚ
  | .num q => some q
  | .bool b => some (if b then 1 else 0)
  | _ => none

/-- Hashability: Python `set()` raises `TypeError` on lists and dicts. -/
def JVal.hashable : JVal → Bool
  | .list _ => false
  | .obj _ => false
  | _ => true

/-- Whether a value is a JSON object (a Python dict). -/
def JVal.isObj : JVal → Bool
  | .obj _ => true
  | _ => false

mutual

/-- Python `==` on the JSON values that reach `set()` (scalars after the
hashability check); `True == 1` and `False == 0` across types. -/
def jbeq : JVal → JVal → Bool
  | .null, .null => true
  | .num a, .num b => a == b
  | .str a, .str b => a == b
  | .bool a, .bool b => a == b
  | .bool a, .num b => (if a then (1 : ℚ) else 0) == b
  | .num a, .bool b => a == (if b then (1 : ℚ) else 0)
  | .list a, .list b => jbeqList a b
  | .obj a, .obj b => jbeqObj a b
  | _, _ => false

def jbeqList : List JVal → List JVal → Bool
  | [], [] => true
  | a :: as, b :: bs => jbeq a b && jbeqList as bs
  | _, _ => false

def jbeqObj : List (String × JVal) → List (String × JVal) → Bool
  | [], [] => true
  | (ka, va) :: as, (kb, vb) :: bs => ka == kb && jbeq va vb && jbeqObj as bs
  | _, _ => false

end

/-- `list(set(xs))`: deduplicate. CPython's set iteration order is
unspecified; we fix first-occurrence order, and state only facts (lengths,
non-emptiness) that do not depend on the order chosen. -/
def jdedup : List JVal → List JVal
  | [] => []
  | x :: t => if (jdedup t).any (jbeq x) then jdedup t else x :: jdedup t

/-- `min(max(q, 0), 1)` from `_validate_extracted_data`. -/
def clamp01 (q : ℚ) : ℚ := min (max q 0) 1

/-- `min(max(q, 1), 10)` from `_validate_extracted_data`. -/
def clamp110 (q : ℚ) : ℚ := min (max q 1) 10

/-! ## Text utilities (Python `str` operations on ASCII text) -/

/-- `str.lower()` on a character. -/
def lowCh (c : Char) : Char := c.toLower

/-- `str.lower()` on a text (texts are lists of characters). -/
def lowTxt (cs : List Char) : List Char := cs.map lowCh

/-- `needle in hay` after both are lowercased by the caller:
substring containment. -/
def startsWithTxt : List Char → List Char → Bool
  | [], _ => true
  | _ :: _, [] => false
  | n :: ns, h :: hs => n == h && startsWithTxt ns hs

/-- Python `needle in hay` (substring test). -/
def containsTxt (hay needle : List Char) : Bool :=
  match hay with
  | [] => needle.isEmpty
  | _ :: t => startsWithTxt needle hay || containsTxt t needle

/-- `str.split('.')`, keeping empty pieces, as Python does. -/
def splitDot (cs : List Char) : List (List Char) :=
  match cs with
  | [] => [[]]
  | c :: t =>
    let rest := splitDot t
    if c == '.' then [] :: rest
    else
      match rest with
      | [] => [[c]]
      | p :: ps => (c :: p) :: ps

/-- `\s` characters of Python's `re` module (ASCII range). -/
def isPySpace (c : Char) : Bool :=
  c == ' ' || c == '\t' || c == '\n' || c == '\r' || c == '\x0b' || c == '\x0c'

/-- `str.strip()`. -/
def stripTxt (cs : List Char) : List Char :=
  ((cs.dropWhile isPySpace).reverse.dropWhile isPySpace).reverse

/-! ## A small matcher for the regular expressions used by the sources

The sources use `re.findall` / `re.search` with `re.IGNORECASE` on patterns
built from three kinds of pieces: case-insensitive literals, alternations of
literals, and greedy bounded repetitions of a character class.  We embed
exactly those pieces, with Python's leftmost-match scan and greedy
backtracking semantics. -/

/-- One piece of a pattern. -/
inductive RPiece where
  /-- a case-insensitive literal, e.g. `last date` -/
  | lit : List Char → RPiece
  /-- an alternation of case-insensitive literals, tried in order,
  e.g. `(?:January|February|...)` -/
  | alts : List (List Char) → RPiece
  /-- `c{lo,hi}` greedy repetition of a character class (`none` = unbounded),
  e.g. `\d{1,2}`, `[:\s]+` -/
  | cls : (Char → Bool) → Nat → Option Nat → RPiece

/-- Length of the maximal prefix of `cs` inside the class `p`. -/
def runLen (p : Char → Bool) : List Char → Nat
  | [] => 0
  | c :: t => if p c then runLen p t + 1 else 0

/-- Case-insensitive literal prefix match (the `re.IGNORECASE` flag). -/
def ciStarts (lit cs : List Char) : Bool :=
  startsWithTxt (lowTxt lit) (lowTxt (cs.take lit.length))

/-- The ways a piece can consume a prefix of `cs`: the list of remainders,
in the order a backtracking greedy matcher tries them. -/
def pieceRem : RPiece → List Char → List (List Char)
  | .lit s, cs => if ciStarts s cs then [cs.drop s.length] else []
  | .alts ss, cs =>
    ss.foldr
      (fun s acc => (if ciStarts s cs then [cs.drop s.length] else []) ++ acc) []
  | .cls p lo hi, cs =>
    let run := runLen p cs
    let upper := match hi with | none => run | some h => min run h
    if upper < lo then []
    else (List.range (upper + 1 - lo)).map (fun k => cs.drop (upper - k))

/-- All ways a sequence of pieces can consume a prefix of `cs`, remainders
in backtracking order. -/
def seqRem : List RPiece → List Char → List (List Char)
  | [], cs => [cs]
  | p :: ps, cs => (pieceRem p cs).flatMap (seqRem ps)

/-- Match `pre` then the capture group `cap` at the head of `cs`; on the
first success return `(captured text, remainder after the whole match)`. -/
def matchHere (pre cap : List RPiece) (cs : List Char) :
    Option (List Char × List Char) :=
  (seqRem pre cs).findSome? fun mid =>
    match seqRem cap mid with
    | [] => none
    | rest :: _ => some (mid.take (mid.length - rest.length), rest)

/-- `re.search`: leftmost match of `pre ++ (cap)`, returning group 1. -/
def findFirst (pre cap : List RPiece) : List Char → Option (List Char)
  | [] => (matchHere pre cap []).map Prod.fst
  | c :: t =>
    match matchHere pre cap (c :: t) with
    | some (g, _) => some g
    | none => findFirst pre cap t

/-- `re.findall` (fuelled by the text length; each step either consumes the
match or advances one position, exactly Python's non-overlapping scan). -/
def findAllAux (pre cap : List RPiece) : Nat → List Char → List (List Char)
  | 0, _ => []
  | _ + 1, [] =>
    match matchHere pre cap [] with
    | some (g, _) => [g]
    | none => []
  | fuel + 1, c :: t =>
    match matchHere pre cap (c :: t) with
    | some (g, rest) =>
      g :: findAllAux pre cap fuel (if rest.length < t.length + 1 then rest else t)
    | none => findAllAux pre cap fuel t

/-- `re.findall(pre(cap), text, re.IGNORECASE)`, group-1 results. -/
def findAll (pre cap : List RPiece) (cs : List Char) : List (List Char) :=
  findAllAux pre cap (cs.length + 1) cs

/-- `\d` on the ASCII texts handled here. -/
def isDigitCh (c : Char) : Bool := c.isDigit

/-- The character class of the date patterns matching a dash or a slash. -/
def isDateSep (c : Char) : Bool := c == '/' || c == '-'

/-- The class `[:\s]` of the deadline patterns. -/
def isColonSpace (c : Char) : Bool := c == ':' || isPySpace c

/-! ## `services/ai_service.py` -/

namespace AIService

/-- One entry of the `exam_dates` list (`end` is spelt `end_`, a Lean
keyword). -/
structure ExamDate where
  type : JVal
  start : JVal
  end_ : JVal
  note : JVal

/-- The `confidence` sub-dictionary produced by extraction. -/
structure Confidence where
  dates : ℚ
  eligibility : ℚ
  overall : ℚ

/-- The confidence structure rendered back as the Python dict (its three
keys, in insertion order); it is never empty. -/
def confToObj (c : Confidence) : List (String × JVal) :=
  [("dates", .num c.dates), ("eligibility", .num c.eligibility),
   ("overall", .num c.overall)]

/-- The dictionary returned by `extract_structured_data` (both the validated
and the fallback paths populate every key; `summary` is absent from both,
modelled as `null` so that `ai_data.get("summary")` is falsy). -/
structure ExtractedData where
  exam_dates : List ExamDate
  application_deadline : JVal
  eligibility : JVal
  location : List (String × JVal)
  categories : List JVal
  tags : List JVal
  exam_type : JVal
  difficulty_level : JVal
  priority_score : ℚ
  confidence : Confidence
  summary : JVal

/-- The `categories` step of `_validate_extracted_data`: keep a list value,
truncated to 5. -/
def validate_categories (data : List (String × JVal)) : List JVal :=
  match jget data "categories" with
  | some (.list l) => l.take 5
  | _ => []

/-- The `tags` step of `_validate_extracted_data`: keep a list value,
truncated to 10. -/
def validate_tags (data : List (String × JVal)) : List JVal :=
  match jget data "tags" with
  | some (.list l) => l.take 10
  | _ => []

/-- The `priority_score` step of `_validate_extracted_data`:
`min(max(score, 1), 10)` on a numeric value, default `5.0`. -/
def validate_priority (data : List (String × JVal)) : ℚ :=
  match jget data "priority_score" with
  | some v => match v.asNum with
    | some q => clamp110 q
    | none => 5
  | none => 5

/-- The `confidence` step of `_validate_extracted_data`: start from `0.5`
defaults; for each of the three keys present with a numeric value, store
`min(max(score, 0), 1)`. -/
def validate_confidence (data : List (String × JVal)) : Confidence :=
  match jget data "confidence" with
  | some (.obj ckv) =>
    let upd := fun (k : String) =>
      match jget ckv k with
      | some v => match v.asNum with
        | some s => clamp01 s
        | none => (0.5 : ℚ)
      | none => (0.5 : ℚ)
    { dates := upd "dates", eligibility := upd "eligibility",
      overall := upd "overall" }
  | _ => ⟨0.5, 0.5, 0.5⟩

/-- `AIService._validate_extracted_data`. -/
def validate_extracted_data (data : List (String × JVal)) : ExtractedData :=
  let exam_dates :=
    match jget data "exam_dates" with
    | some (.list l) =>
      l.filterMap fun v =>
        match v with
        | .obj kv =>
          let vd : ExamDate :=
            { type := jgetD kv "type" (.str "exam"),
              start := (jget kv "start").getD .null,
              end_ := (jget kv "end").getD .null,
              note := jgetD kv "note" (.str "") }
          if vd.start.truthy then some vd else none
        | _ => none
    | _ => []
  let application_deadline :=
    match jget data "application_deadline" with
    | some v => if v.truthy then v else .null
    | none => .null
  let eligibility :=
    match jget data "eligibility" with
    | some v => if v.truthy then v else .null
    | none => .null
  let location :=
    match jget data "location" with
    | some (.obj kv) => jupdate [("country", .str "India")] kv
    | _ => [("country", .str "India")]
  let categories := validate_categories data
  let tags := validate_tags data
  let exam_type :=
    match jget data "exam_type" with
    | some v => if v.truthy then v else .str "government"
    | none => .str "government"
  let difficulty_level :=
    match jget data "difficulty_level" with
    | some v => if v.truthy then v else .str "medium"
    | none => .str "medium"
  let priority_score := validate_priority data
  let confidence := validate_confidence data
  { exam_dates, application_deadline, eligibility, location, categories,
    tags, exam_type, difficulty_level, priority_score, confidence,
    summary := .null }

/-- Greedy repetitions of digits, bounded. -/
def dRep (lo hi : Nat) : RPiece := .cls isDigitCh lo (some hi)

/-- The full month names of the second fallback date pattern. -/
def fullMonths : List (List Char) :=
  (["January", "February", "March", "April", "May", "June", "July",
    "August", "September", "October", "November", "December"]).map
    String.toList

/-- The abbreviated month names of the third fallback date pattern. -/
def shortMonths : List (List Char) :=
  (["Jan", "Feb", "Mar", "Apr", "May", "Jun", "Jul", "Aug", "Sep", "Oct",
    "Nov", "Dec"]).map String.toList

/-- The three patterns of `_extract_dates_fallback`, each entirely inside
its capture group. -/
def fallbackDatePatterns : List (List RPiece) :=
  [[dRep 1 2, .cls isDateSep 1 (some 1), dRep 1 2, .cls isDateSep 1 (some 1),
    dRep 2 4],
   [dRep 1 2, .cls isPySpace 1 none, .alts fullMonths, .cls isPySpace 1 none,
    dRep 2 4],
   [dRep 1 2, .cls isPySpace 1 none, .alts shortMonths, .cls isPySpace 1 none,
    dRep 2 4]]

/-- `AIService._extract_dates_fallback`: all matches of the three patterns,
in pattern order, truncated to 3. -/
def extract_dates_fallback (content : List Char) : List ExamDate :=
  let found := fallbackDatePatterns.flatMap fun pat => findAll [] pat content
  (found.map fun m =>
    ({ type := .str "exam", start := .str (String.mk m), end_ := .null,
       note := .str "Extracted using regex" } : ExamDate)).take 3

/-- The keyword list of `_extract_eligibility_fallback`. -/
def eligibilityKeywords : List (List Char) :=
  (["eligibility", "qualification", "educational qualification",
    "age limit", "age criteria", "minimum age", "maximum age",
    "degree", "graduation", "post graduation", "diploma"]).map String.toList

/-- `AIService._extract_eligibility_fallback`: the first sentence (split on
dots) whose lowercase form contains a keyword, stripped; else `None`. -/
def extract_eligibility_fallback (content : List Char) : JVal :=
  match (splitDot content).find? (fun s =>
      eligibilityKeywords.any (fun k => containsTxt (lowTxt s) k)) with
  | some s => .str (String.mk (stripTxt s))
  | none => .null

/-- The keyword table of `_extract_categories_fallback`, in the source's
insertion order. -/
def categoryKeywords : List (String × List (List Char)) :=
  [("upsc", (["upsc", "union public service commission",
              "civil services"]).map String.toList),
   ("ssc", (["ssc", "staff selection commission", "cgl",
             "chsl"]).map String.toList),
   ("banking", (["banking", "ibps", "sbi", "po", "clerk"]).map String.toList),
   ("engineering", (["engineering", "gate", "jee", "neet"]).map String.toList),
   ("railway", (["railway", "rrb", "ntpc", "group d"]).map String.toList),
   ("defense", (["army", "navy", "air force", "defense",
                 "military"]).map String.toList),
   ("teaching", (["teaching", "teacher", "education", "tet",
                  "ctet"]).map String.toList),
   ("police", (["police", "constable", "si", "inspector"]).map String.toList)]

/-- `AIService._extract_categories_fallback`: the table keys whose keyword
list hits the lowercased `title ++ " " ++ content`, first five. -/
def extract_categories_fallback (title content : List Char) : List JVal :=
  let text := lowTxt (title ++ ' ' :: content)
  ((categoryKeywords.filter fun ck =>
      ck.2.any fun k => containsTxt text k).map fun ck =>
    JVal.str ck.1).take 5

/-- `AIService._calculate_priority_score_fallback`. -/
def calculate_priority_score_fallback (title content : List Char) : ℚ :=
  let text := lowTxt (title ++ ' ' :: content)
  let score : ℚ := 5
  let highKws := (["urgent", "important", "deadline", "last date",
    "notification"]).map String.toList
  let score := highKws.foldl
    (fun s k => if containsTxt text k then s + 1 else s) score
  let medKws := (["recruitment", "examination", "admission",
    "application"]).map String.toList
  let score := medKws.foldl
    (fun s k => if containsTxt text k then s + 0.5 else s) score
  let score :=
    if containsTxt text "upsc".toList then score + 2
    else if containsTxt text "ssc".toList then score + 1.5
    else if containsTxt text "banking".toList || containsTxt text "ibps".toList
      then score + 1
    else score
  min (max score 1) 10

/-- `AIService._fallback_extraction`: the deterministic rule-based path. -/
def fallback_extraction (content title : List Char) : ExtractedData :=
  let exam_dates := extract_dates_fallback content
  let eligibility := extract_eligibility_fallback content
  let categories := extract_categories_fallback title content
  let priority_score := calculate_priority_score_fallback title content
  { exam_dates, application_deadline := .null, eligibility,
    location := [("country", .str "India")], categories,
    tags := categories.take 5, exam_type := .str "government",
    difficulty_level := .str "medium", priority_score,
    confidence := ⟨0.3, 0.4, 0.35⟩, summary := .null }

/-- `AIService.extract_structured_data`.  The OpenAI interaction is the
environment: `clientAvailable` is `self.openai_client` truthiness,
`processingEnabled` is `settings.AI_PROCESSING_ENABLED`, and `response` is
the parsed completion — `.error` for any raised exception (network failure,
timeout, malformed JSON).  A JSON response that is not an object raises
`AttributeError` inside validation, which the same handler catches, so it
also lands in the fallback. -/
def extract_structured_data (clientAvailable processingEnabled : Bool)
    (response : Except Unit JVal) (content title : List Char) :
    ExtractedData :=
  if !clientAvailable || !processingEnabled then
    fallback_extraction content title
  else
    match response with
    | .error _ => fallback_extraction content title
    | .ok (.obj kvs) => validate_extracted_data kvs
    | .ok _ => fallback_extraction content title

/-- `AIService.detect_duplicates`: all index pairs `i < j` whose similarity
over `title + " " + summary` is at least the threshold, in the nested-loop
order.  The similarity function is the environment (an embedding model or
the TF-IDF fallback). -/
def detect_duplicates (simf : String → String → ℚ)
    (texts : List String) (threshold : ℚ) : List (Nat × Nat × ℚ) :=
  (List.range texts.length).flatMap fun i =>
    ((List.range texts.length).filter fun j => i < j).filterMap fun j =>
      let s := simf (texts.getD i "") (texts.getD j "")
      if threshold ≤ s then some (i, j, s) else none

end AIService

/-! ## `crawlers/improved_ssc_crawler.py` -/

/-- A calendar date (datetimes carry no further structure the claims need). -/
structure PDate where
  year : Nat
  month : Nat
  day : Nat
deriving DecidableEq

/-- Leap-year rule, for day-of-month validation. -/
def isLeap (y : Nat) : Bool := y % 4 == 0 && (y % 100 != 0 || y % 400 == 0)

/-- Days in a month. -/
def maxDay (m y : Nat) : Nat :=
  if m == 2 then (if isLeap y then 29 else 28)
  else if m == 4 || m == 6 || m == 9 || m == 11 then 30
  else 31

/-- Split a text on dash/slash separators. -/
def splitDateSeps (cs : List Char) : List (List Char) :=
  match cs with
  | [] => [[]]
  | c :: t =>
    let rest := splitDateSeps t
    if isDateSep c then [] :: rest
    else
      match rest with
      | [] => [[c]]
      | p :: ps => (c :: p) :: ps

/-- Digits to a number. -/
def digitsToNat (cs : List Char) : Nat :=
  cs.foldl (fun n c => n * 10 + (c.toNat - '0'.toNat)) 0

/-- Modelled from the spec: the third-party `dateparser.parse` (absent from
`src/`) on the plain numeric dates the crawler regexes produce
(`d/m/Y`, `d-m-Y`).  dateparser's default date order is month-first; a
first component that cannot be a month forces day-first, matching the
spec's Scenario A (`15/03/2024` → 2024-03-15).  Anything else parses to
`None`. -/
def parse_date_numeric (cs : List Char) : Option PDate :=
  match splitDateSeps cs with
  | [a, b, c] =>
    if a.all isDigitCh && b.all isDigitCh && c.all isDigitCh &&
        !a.isEmpty && !b.isEmpty && c.length == 4 then
      let x := digitsToNat a
      let y := digitsToNat b
      let z := digitsToNat c
      if 1 ≤ x && x ≤ 12 && 1 ≤ y && y ≤ maxDay x z then
        some ⟨z, x, y⟩
      else if 1 ≤ y && y ≤ 12 && 1 ≤ x && x ≤ maxDay y z then
        some ⟨z, y, x⟩
      else none
    else none
  | _ => none

namespace ImprovedSSCCrawler

open AIService

/-- The keyword heads of the four `_extract_deadline` patterns, in source
order. -/
def deadlineKeywords : List (List Char) :=
  (["last date", "closing date", "deadline",
    "application deadline"]).map String.toList

/-- The shared capture group of the deadline patterns:
one-or-two digits, separator, one-or-two digits, separator, four digits. -/
def deadlineCap : List RPiece :=
  [dRep 1 2, .cls isDateSep 1 (some 1), dRep 1 2, .cls isDateSep 1 (some 1),
   .cls isDigitCh 4 (some 4)]

/-- `ImprovedSSCCrawler._extract_deadline`: try each pattern in order; the
first regex match of a pattern is parsed, and a parse failure moves on to
the next pattern. -/
def extract_deadline (text : List Char) : Option PDate :=
  deadlineKeywords.findSome? fun kw =>
    (findFirst [RPiece.lit kw, .cls isColonSpace 1 none] deadlineCap
      text).bind parse_date_numeric

/-- The per-field confidence dict of crawler-produced announcements. -/
structure Conf4 where
  title : ℚ
  dates : ℚ
  eligibility : ℚ
  overall : ℚ
deriving DecidableEq

/-- The announcement dictionary built by `_scrape_notification_details`
and `_get_sample_announcements`, and the row the persistence layer stores
(the `Announcement(...)` constructor in `save_announcements` copies these
fields one-for-one). -/
structure AnnData where
  title : String
  summary : String
  content : String
  source_url : String
  publish_date : Option Int
  exam_dates : List ExamDate
  application_deadline : Option Int
  eligibility : String
  location : List (String × JVal)
  categories : List String
  tags : List String
  language : String
  priority_score : ℚ
  is_verified : Bool
  is_duplicate : Bool
  confidence : Conf4

/-- Seconds per day, for the `timedelta(days=n)` offsets of the sample
data (`now` is the Unix time of `datetime.now()`). -/
def daySecs : Int := 86400

/-- `ImprovedSSCCrawler._get_sample_announcements`: the two hardcoded
records. -/
def get_sample_announcements (now : Int) : List AnnData :=
  [{ title := "Combined Graduate Level (CGL) Examination 2024 - Notification",
     summary := "Notification for SSC CGL 2024 Examination for recruitment to various Group B and C posts",
     content := "Staff Selection Commission (SSC) has released the notification for Combined Graduate Level (CGL) Examination 2024 for recruitment to various Group B and C posts in different Ministries/Departments/Organizations of Government of India.",
     source_url := "https://ssc.nic.in/notification/cgl-2024",
     publish_date := some (now - 3 * daySecs),
     exam_dates := [{ type := .str "tier1", start := .str "2024-07-01T09:00:00Z",
                      end_ := .str "2024-07-01T11:00:00Z",
                      note := .str "Tier I Examination" }],
     application_deadline := some (now + 25 * daySecs),
     eligibility := "Bachelor's degree from recognized university. Age limit: 18-32 years (relaxations applicable)",
     location := [("country", .str "India"), ("state", .str "All States"),
                  ("city", .str "Multiple Centers")],
     categories := ["cgl", "tier1"],
     tags := ["SSC", "CGL", "2024"],
     language := "en",
     priority_score := 8.5,
     is_verified := true,
     is_duplicate := false,
     confidence := ⟨0.95, 0.90, 0.85, 0.90⟩ },
   { title := "Combined Higher Secondary Level (CHSL) Examination 2024",
     summary := "Notification for SSC CHSL 2024 Examination for recruitment to various posts",
     content := "Staff Selection Commission (SSC) has released the notification for Combined Higher Secondary Level (CHSL) Examination 2024 for recruitment to Lower Divisional Clerk (LDC), Junior Secretariat Assistant (JSA), Postal Assistant (PA), and Data Entry Operator (DEO) posts.",
     source_url := "https://ssc.nic.in/notification/chsl-2024",
     publish_date := some (now - 7 * daySecs),
     exam_dates := [{ type := .str "tier1", start := .str "2024-08-15T09:00:00Z",
                      end_ := .str "2024-08-15T11:00:00Z",
                      note := .str "Tier I Examination" }],
     application_deadline := some (now + 20 * daySecs),
     eligibility := "12th Standard or equivalent from recognized Board/University. Age limit: 18-27 years",
     location := [("country", .str "India"), ("state", .str "All States"),
                  ("city", .str "Multiple Centers")],
     categories := ["chsl", "tier1"],
     tags := ["SSC", "CHSL", "2024"],
     language := "en",
     priority_score := 8.0,
     is_verified := true,
     is_duplicate := false,
     confidence := ⟨0.95, 0.90, 0.85, 0.90⟩ }]

/-- The outcome of fetching one of the crawler's scrape URLs: a network
failure (the `except` branch of the URL loop), or a page whose candidate
links each either extract to an announcement dict or fail
(`_scrape_notification_details` returns `None` on any per-item error). -/
inductive PageFetch where
  | fail : PageFetch
  | page : List (Option AnnData) → PageFetch

/-- The announcements successfully extracted from the fetched pages, in
order. -/
def liveAnnouncements (fetches : List PageFetch) : List AnnData :=
  fetches.flatMap fun f =>
    match f with
    | .fail => []
    | .page cands => cands.filterMap id

/-- `ImprovedSSCCrawler.crawl_improved_notifications`: accumulate per-URL
extractions, skipping failed URLs; if nothing was found, substitute the
hardcoded sample data. -/
def crawl_improved_notifications (fetches : List PageFetch) (now : Int) :
    List AnnData :=
  let all_announcements := liveAnnouncements fetches
  if all_announcements.isEmpty then get_sample_announcements now
  else all_announcements

/-- `ImprovedSSCCrawler.save_announcements`: the database is the list of
previously committed rows.  The session has `autoflush=False` and commits
once after the loop, so every per-item existence query sees only `db`,
never the rows pending in the same batch; an item whose `source_url`
already exists in `db` is skipped, every other item is added and counted. -/
def save_announcements (db : List AnnData) (batch : List AnnData) :
    List AnnData × Nat :=
  batch.foldl
    (fun acc a =>
      if db.any (fun s => s.source_url == a.source_url) then acc
      else (acc.1 ++ [a], acc.2 + 1))
    (db, 0)

/-- The structured batch result of `run_crawl`. -/
structure CrawlRunResult where
  success : Bool
  source : String
  crawled_count : Nat
  saved_count : Nat
  error : Option String
deriving DecidableEq

/-- `ImprovedSSCCrawler.run_crawl`: crawl, persist, report.  Every step of
the embedded pipeline is total, so the `except` branch of the source (which
would report `success = False`) is unreachable and the result always carries
`success = True` with `crawled_count = len(notifications)`. -/
def run_crawl (fetches : List PageFetch) (db : List AnnData) (now : Int) :
    CrawlRunResult × List AnnData :=
  let notifications := crawl_improved_notifications fetches now
  let saved := save_announcements db notifications
  ({ success := true, source := "SSC Official",
     crawled_count := notifications.length, saved_count := saved.2,
     error := none }, saved.1)

end ImprovedSSCCrawler

/-! ## `crawlers/ai_enhanced_crawler.py` -/

namespace AIEnhancedCrawler

open AIService

/-- A stored `Announcement` ORM row, restricted to the columns this
crawler reads or writes.  `confidence` is a JSON column holding an object
or `NULL`; `categories` and `tags` are JSON columns holding a list or
`NULL`. -/
structure Announcement where
  id : Nat
  title : String
  summary : Option String
  content : Option String
  source_url : String
  exam_dates : List ExamDate
  application_deadline : Option PDate
  eligibility : JVal
  location : List (String × JVal)
  categories : Option (List JVal)
  tags : Option (List JVal)
  priority_score : ℚ
  confidence : JVal
  is_duplicate : Bool
  created_at : Int

/-- The JSON object held by a confidence column (`{}` when null; the
column never holds a non-object value). -/
def confObjOf (v : JVal) : List (String × JVal) :=
  match v with
  | .obj kvs => kvs
  | _ => []

/-- The closing lines of `_update_announcement_with_ai_data`: mark the row
as AI-processed (`confidence or {}`, then set the two bookkeeping keys in
order). -/
def markProcessed (a : Announcement) (nowIso : String) : Announcement :=
  let base := if a.confidence.truthy then confObjOf a.confidence else []
  let newConf := JVal.obj (jset (jset base "ai_processed" (.bool true))
    "ai_processing_date" (.str nowIso))
  { a with confidence := newConf }

/-- The summary step of `_update_announcement_with_ai_data`, then the
AI-processed marking.  A truthy non-string summary would make `len()` raise,
aborting the rest of the update (the surrounding `try` logs and returns), so
the marking is skipped in that case. -/
def update_step_summary (a : Announcement) (d : ExtractedData)
    (nowIso : String) : Announcement :=
  match d.summary with
  | .str s =>
    if s != "" && (a.summary.getD "").length < s.length then
      markProcessed { a with summary := some s } nowIso
    else markProcessed a nowIso
  | v => if v.truthy then a else markProcessed a nowIso

/-- The tag merge, priority and confidence steps of
`_update_announcement_with_ai_data`.  `list(set(...))` raises `TypeError`
on unhashable elements, aborting the rest of the update; the extraction's
confidence dict always carries its three keys, so the source's
`if ai_data.get("confidence")` guard is always taken. -/
def update_step_tags (a : Announcement) (d : ExtractedData)
    (nowIso : String) : Announcement :=
  let existingT := a.tags.getD []
  if (existingT ++ d.tags).any (fun v => !v.hashable) then a
  else
    let a := { a with tags := some ((jdedup (existingT ++ d.tags)).take 15) }
    let a := if d.priority_score != 0 then
        { a with priority_score := d.priority_score } else a
    let a := { a with confidence := .obj (confToObj d.confidence) }
    update_step_summary a d nowIso

/-- The category merge step of `_update_announcement_with_ai_data`
(`list(set(existing + new))[:10]`), then the remaining steps. -/
def update_step_merge (a : Announcement) (d : ExtractedData)
    (nowIso : String) : Announcement :=
  let existingC := a.categories.getD []
  if (existingC ++ d.categories).any (fun v => !v.hashable) then a
  else
    update_step_tags
      { a with categories := some ((jdedup (existingC ++ d.categories)).take 10) }
      d nowIso

/-- The eligibility and location steps of
`_update_announcement_with_ai_data`. -/
def update_after_deadline (a : Announcement) (d : ExtractedData)
    (nowIso : String) : Announcement :=
  let a := if d.eligibility.truthy then { a with eligibility := d.eligibility }
    else a
  let a := if !d.location.isEmpty then { a with location := d.location } else a
  update_step_merge a d nowIso

/-- The application-deadline step of `_update_announcement_with_ai_data`,
then the remaining steps.  `dateparser.parse` on a truthy non-string value
raises `TypeError`; the whole update body sits in one `try`, so that
exception leaves the row with only the earlier assignments applied. -/
def update_step_deadline (a : Announcement) (d : ExtractedData)
    (nowIso : String) : Announcement :=
  if d.application_deadline.truthy then
    match d.application_deadline with
    | .str s =>
      let a := match parse_date_numeric s.toList with
        | some dt => { a with application_deadline := some dt }
        | none => a
      update_after_deadline a d nowIso
    | _ => a
  else update_after_deadline a d nowIso

/-- `AIEnhancedCrawler._update_announcement_with_ai_data`: the exam-dates
step, then the deadline step and the rest. -/
def update_announcement_with_ai_data (a : Announcement) (d : ExtractedData)
    (nowIso : String) : Announcement :=
  let a := if !d.exam_dates.isEmpty then { a with exam_dates := d.exam_dates }
    else a
  update_step_deadline a d nowIso

/-- A placeholder row for out-of-range indexing (the source guards every
access with `i < len(announcements)`). -/
def dummyAnn : Announcement :=
  { id := 0, title := "", summary := none, content := none, source_url := "",
    exam_dates := [], application_deadline := none, eligibility := .null,
    location := [], categories := none, tags := none, priority_score := 0,
    confidence := .null, is_duplicate := false, created_at := 0 }

/-- Mark one row as the duplicate: set the flag, then store the similarity
and the root's id (as a string) on `confidence or {}`. -/
def markDupRow (r : Announcement) (s : ℚ) (rootId : Nat) : Announcement :=
  let base := if r.confidence.truthy then confObjOf r.confidence else []
  let newConf := JVal.obj (jset (jset base "duplicate_similarity" (.num s))
    "duplicate_of" (.str (Nat.repr rootId)))
  { r with is_duplicate := true, confidence := newConf }

/-- The body of the marking loop of `AIEnhancedCrawler.detect_duplicates`
for one flagged pair: the row with the later `created_at` (the earlier-index
row when they tie) is marked as a duplicate of the other. -/
def markPair (rows : List Announcement) (p : Nat × Nat × ℚ) :
    List Announcement :=
  if p.1 < rows.length && p.2.1 < rows.length then
    let ri := rows.getD p.1 dummyAnn
    let rj := rows.getD p.2.1 dummyAnn
    if ri.created_at < rj.created_at then
      rows.set p.2.1 (markDupRow rj p.2.2 ri.id)
    else
      rows.set p.1 (markDupRow ri p.2.2 rj.id)
  else rows

/-- `AIEnhancedCrawler.detect_duplicates` over a window of rows: flag all
pairs at or above threshold `0.85` on `title + " " + summary`, then mark
them in order.  The similarity function is the environment. -/
def detect_duplicates_pass (simf : String → String → ℚ)
    (rows : List Announcement) : List Announcement :=
  let texts := rows.map fun r => r.title ++ " " ++ r.summary.getD ""
  let pairs := AIService.detect_duplicates simf texts (mkRat 85 100)
  pairs.foldl markPair rows

end AIEnhancedCrawler

/-! ## `crawlers/crawler_manager.py` -/

namespace CrawlerManager

/-- The dictionary a crawler's `run_crawl` returns, restricted to the keys
the manager reads (`source` and `saved_count` are absent from some error
dictionaries, hence optional). -/
structure ManagerEntry where
  success : Bool
  source : Option String
  saved_count : Option Nat
  error : Option String
deriving DecidableEq

/-- What calling a crawler's `run_crawl` does: return a dictionary, or
raise. -/
inductive RunOutcome where
  | raises : String → RunOutcome
  | returns : ManagerEntry → RunOutcome

/-- A registered crawler: its `name` attribute and the behaviour of its
`run_crawl`. -/
structure Crawler where
  name : String
  run_crawl : RunOutcome

/-- `CrawlerManager.get_crawler_by_name` (case-insensitive). -/
def get_crawler_by_name (cs : List Crawler) (n : String) : Option Crawler :=
  cs.find? fun c => c.name.toLower == n.toLower

/-- `CrawlerManager.run_single_crawler`: an unknown name or a raising
crawler both produce a structured failure dictionary; nothing propagates. -/
def run_single_crawler (cs : List Crawler) (n : String) : ManagerEntry :=
  match get_crawler_by_name cs n with
  | none =>
    { success := false, source := none, saved_count := none,
      error := some ("Crawler " ++ n ++ " not found") }
  | some c =>
    match c.run_crawl with
    | .returns r => r
    | .raises e =>
      { success := false, source := some n, saved_count := none,
        error := some e }

/-- The per-crawler entry appended to `self.results` by
`run_all_crawlers`. -/
def entryOf (c : Crawler) : ManagerEntry :=
  match c.run_crawl with
  | .returns r => r
  | .raises e =>
    { success := false, source := some c.name, saved_count := none,
      error := some e }

/-- The aggregate dictionary returned by `run_all_crawlers`. -/
structure Summary where
  success : Bool
  total_crawlers : Nat
  successful_crawls : Nat
  failed_crawls : Nat
  total_announcements_saved : Nat
  results : List ManagerEntry
deriving DecidableEq

/-- One iteration of the `run_all_crawlers` loop: tally the outcome
(success count, failure count, saved total) and append the entry. -/
def runStep (acc : Nat × Nat × Nat × List ManagerEntry) (c : Crawler) :
    Nat × Nat × Nat × List ManagerEntry :=
  match c.run_crawl with
  | .returns r =>
    if r.success then
      (acc.1 + 1, acc.2.1, acc.2.2.1 + (r.saved_count.getD 0),
       acc.2.2.2 ++ [r])
    else (acc.1, acc.2.1 + 1, acc.2.2.1, acc.2.2.2 ++ [r])
  | .raises _ =>
    (acc.1, acc.2.1 + 1, acc.2.2.1, acc.2.2.2 ++ [entryOf c])

/-- `CrawlerManager.run_all_crawlers`: every crawler runs; an exception is
converted to a failure entry and the loop continues; the summary always
reports `success = True`. -/
def run_all_crawlers (cs : List Crawler) : Summary :=
  let acc := cs.foldl runStep (0, 0, 0, [])
  { success := true, total_crawlers := cs.length, successful_crawls := acc.1,
    failed_crawls := acc.2.1, total_announcements_saved := acc.2.2.1,
    results := acc.2.2.2 }

end CrawlerManager

/-! ## Accessors and concrete instances used by the statements below -/

/-- The numeric value stored under key `k` of a confidence column. -/
def confVal (v : JVal) (k : String) : Option ℚ :=
  match jget (AIEnhancedCrawler.confObjOf v) k with
  | some w => w.asNum
  | none => none

/-- The string stored under `duplicate_of` of a confidence column. -/
def dupOfVal (v : JVal) : Option String :=
  match jget (AIEnhancedCrawler.confObjOf v) "duplicate_of" with
  | some (.str s) => some s
  | _ => none

/-- A minimal announcement dict (test data for the persistence and batch
claims). -/
def mkAnnData (u : String) : ImprovedSSCCrawler.AnnData :=
  { title := u, summary := "", content := "", source_url := u,
    publish_date := none, exam_dates := [], application_deadline := none,
    eligibility := "", location := [], categories := [], tags := [],
    language := "en", priority_score := 5, is_verified := false,
    is_duplicate := false, confidence := ⟨0, 0, 0, 0⟩ }

/-- A window row with the given id and creation time (test data for the
duplicate-detection claims). -/
def mkRow (i : Nat) (t : Int) : AIEnhancedCrawler.Announcement :=
  { AIEnhancedCrawler.dummyAnn with
    id := i, title := "T", summary := some "S", created_at := t }

/-- Three rows created at times 0, 1, 2 — a window in which every pair is
flagged under a constant similarity of 0.9. -/
def rows3 : List AIEnhancedCrawler.Announcement :=
  [mkRow 0 0, mkRow 1 1, mkRow 2 2]

/-- A constant similarity oracle scoring every pair 0.9. -/
def simConst : String → String → ℚ := fun _ _ => mkRat 9 10

/-- The texts of the `rows3` window. -/
def rows3Texts : List String :=
  rows3.map fun r => r.title ++ " " ++ r.summary.getD ""

/-- The flagged pairs of the `rows3` window at threshold 0.85. -/
def rows3Pairs : List (Nat × Nat × ℚ) :=
  AIService.detect_duplicates simConst rows3Texts (mkRat 85 100)

/-- A stored row whose overall confidence is 0.9 (for the re-processing
claim). -/
def highConfRow : AIEnhancedCrawler.Announcement :=
  { AIEnhancedCrawler.dummyAnn with confidence := .obj [("overall", .num 0.9)] }

/-- A stored row holding five categories and ten tags (for the cap claim). -/
def fullCapsRow : AIEnhancedCrawler.Announcement :=
  { AIEnhancedCrawler.dummyAnn with
    categories := some ((["a", "b", "c", "d", "e"]).map JVal.str),
    tags := some ((["1", "2", "3", "4", "5", "6", "7", "8", "9",
      "10"]).map JVal.str) }

/-- A validated AI payload carrying five fresh categories and ten fresh
tags. -/
def freshCapsData : AIService.ExtractedData :=
  AIService.validate_extracted_data
    [("categories", .list ((["f", "g", "h", "i", "j"]).map JVal.str)),
     ("tags", .list ((["11", "12", "13", "14", "15", "16", "17", "18", "19",
       "20"]).map JVal.str))]

/-- A fetched page with ten candidate links of which three fail
extraction. -/
def tenCandidates : List (Option ImprovedSSCCrawler.AnnData) :=
  [some (mkAnnData "u1"), some (mkAnnData "u2"), none,
   some (mkAnnData "u3"), none, some (mkAnnData "u4"),
   some (mkAnnData "u5"), none, some (mkAnnData "u6"),
   some (mkAnnData "u7")]

/-- A placeholder crawler (for out-of-range indexing in statements). -/
def dummyCrawler : CrawlerManager.Crawler :=
  { name := "", run_crawl := .returns
      { success := false, source := none, saved_count := none,
        error := none } }

/-- A placeholder manager entry (for out-of-range indexing in
statements). -/
def dummyEntry : CrawlerManager.ManagerEntry :=
  { success := false, source := none, saved_count := none, error := none }

/-- A crawler whose `run_crawl` raises (test data for the coordinator
claim). -/
def crashingCrawler : CrawlerManager.Crawler :=
  { name := "Boom", run_crawl := .raises "network down" }

/-- A crawler whose `run_crawl` returns a successful batch result. -/
def okCrawler : CrawlerManager.Crawler :=
  { name := "OK", run_crawl := .returns
      { success := true, source := some "OK", saved_count := some 2,
        error := none } }

/-- How many stored rows carry the given source URL. -/
def countUrl (db : List ImprovedSSCCrawler.AnnData) (u : String) : Nat :=
  (db.filter fun r => r.source_url == u).length

/-- "No populated field becomes null": every field of `a` that is populated
(non-null, non-empty) is still populated in `r`. -/
def fieldsPreserved (a r : AIEnhancedCrawler.Announcement) : Prop :=
  (a.exam_dates ≠ [] → r.exam_dates ≠ []) ∧
  (a.application_deadline.isSome = true →
    r.application_deadline.isSome = true) ∧
  (a.eligibility.truthy = true → r.eligibility.truthy = true) ∧
  (a.location ≠ [] → r.location ≠ []) ∧
  (a.categories.getD [] ≠ [] → r.categories.getD [] ≠ []) ∧
  (a.tags.getD [] ≠ [] → r.tags.getD [] ≠ []) ∧
  (a.summary.isSome = true → r.summary.isSome = true) ∧
  (a.confidence.truthy = true → r.confidence.truthy = true)

/-- "A missing/null new value leaves the stored value unchanged", for the
directly-assigned fields of the update (exam dates, application deadline,
eligibility, location, priority score, summary).  Categories and tags are
deliberately absent: the source always merges them
(`list(set(existing + new))[:cap]`), which can rewrite those columns even
when the new list is empty. -/
def nullsLeaveUnchanged (d : AIService.ExtractedData)
    (a r : AIEnhancedCrawler.Announcement) : Prop :=
  (d.exam_dates = [] → r.exam_dates = a.exam_dates) ∧
  (d.application_deadline.truthy = false →
    r.application_deadline = a.application_deadline) ∧
  (d.eligibility.truthy = false → r.eligibility = a.eligibility) ∧
  (d.location = [] → r.location = a.location) ∧
  (d.priority_score = 0 → r.priority_score = a.priority_score) ∧
  (d.summary.truthy = false → r.summary = a.summary)

/-! ## Basic lemmas -/

theorem clamp01_bounds (q : ℚ) : 0 ≤ clamp01 q ∧ clamp01 q ≤ 1 := by
  unfold clamp01
  constructor
  · exact le_min (le_max_right q 0) (by norm_num)
  · exact min_le_right _ _

theorem clamp110_bounds (q : ℚ) : 1 ≤ clamp110 q ∧ clamp110 q ≤ 10 := by
  unfold clamp110
  constructor
  · exact le_min (le_max_right q 1) (by norm_num)
  · exact min_le_right _ _

theorem jget_jset_self (kvs : List (String × JVal)) (k : String) (v : JVal) :
    jget (jset kvs k v) k = some v := by
  induction kvs with
  | nil => simp [jset, jget]
  | cons kv t ih =>
    obtain ⟨k', v'⟩ := kv
    by_cases h : k' = k
    · simp [jset, jget, h]
    · simp [jset, jget, h, ih]

theorem jdedup_cons_ne_nil (x : JVal) (t : List JVal) :
    jdedup (x :: t) ≠ [] := by
  rw [jdedup]
  split
  · next h =>
    intro hnil
    rw [hnil] at h
    simp at h
  · simp

theorem jdedup_ne_nil (xs : List JVal) (h : xs ≠ []) : jdedup xs ≠ [] := by
  cases xs with
  | nil => exact absurd rfl h
  | cons x t => exact jdedup_cons_ne_nil x t

theorem take_ne_nil_of_ne_nil {α : Type} (l : List α) (n : Nat)
    (hl : l ≠ []) (hn : 0 < n) : l.take n ≠ [] := by
  cases l with
  | nil => exact absurd rfl hl
  | cons x t =>
    cases n with
    | zero => omega
    | succ m => simp [List.take]

/-! ## Lemmas about the validation step -/

theorem validate_confidence_proj (data : List (String × JVal)) :
    (AIService.validate_extracted_data data).confidence =
      AIService.validate_confidence data := rfl

theorem validate_priority_proj (data : List (String × JVal)) :
    (AIService.validate_extracted_data data).priority_score =
      AIService.validate_priority data := rfl

theorem validate_categories_proj (data : List (String × JVal)) :
    (AIService.validate_extracted_data data).categories =
      AIService.validate_categories data := rfl

theorem validate_tags_proj (data : List (String × JVal)) :
    (AIService.validate_extracted_data data).tags =
      AIService.validate_tags data := rfl

theorem validate_conf_bounds (data : List (String × JVal)) :
    (0 ≤ (AIService.validate_confidence data).dates ∧
      (AIService.validate_confidence data).dates ≤ 1) ∧
    (0 ≤ (AIService.validate_confidence data).eligibility ∧
      (AIService.validate_confidence data).eligibility ≤ 1) ∧
    (0 ≤ (AIService.validate_confidence data).overall ∧
      (AIService.validate_confidence data).overall ≤ 1) := by
  unfold AIService.validate_confidence
  refine ⟨?_, ?_, ?_⟩ <;>
    · split
      · dsimp only
        split
        · split
          · exact clamp01_bounds _
          · norm_num
        · norm_num
      · norm_num

theorem validate_priority_bounds (data : List (String × JVal)) :
    1 ≤ AIService.validate_priority data ∧
      AIService.validate_priority data ≤ 10 := by
  unfold AIService.validate_priority
  split
  · split
    · exact clamp110_bounds _
    · norm_num
  · norm_num

theorem validate_categories_cap (data : List (String × JVal)) :
    (AIService.validate_categories data).length ≤ 5 := by
  unfold AIService.validate_categories
  split
  · rw [List.length_take]; omega
  · simp

theorem validate_tags_cap (data : List (String × JVal)) :
    (AIService.validate_tags data).length ≤ 10 := by
  unfold AIService.validate_tags
  split
  · rw [List.length_take]; omega
  · simp

theorem fallback_confidence_values (content title : List Char) :
    (AIService.fallback_extraction content title).confidence =
      ⟨0.3, 0.4, 0.35⟩ := rfl

theorem fallback_categories_from_table (content title : List Char) :
    ∀ c ∈ (AIService.fallback_extraction content title).categories,
      ∃ p ∈ AIService.categoryKeywords, c = JVal.str p.1 ∧
        p.2.any (fun k => containsTxt (lowTxt (title ++ ' ' :: content)) k)
          = true := by
  intro c hc
  have hc2 : c ∈ (AIService.categoryKeywords.filter fun ck =>
      ck.2.any fun k =>
        containsTxt (lowTxt (title ++ ' ' :: content)) k).map fun ck =>
      JVal.str ck.1 := by
    have := List.take_subset 5 ((AIService.categoryKeywords.filter fun ck =>
      ck.2.any fun k =>
        containsTxt (lowTxt (title ++ ' ' :: content)) k).map fun ck =>
      JVal.str ck.1)
    exact this hc
  rcases List.mem_map.mp hc2 with ⟨ck, hckmem, hckeq⟩
  rcases List.mem_filter.mp hckmem with ⟨hmem, hpred⟩
  exact ⟨ck, hmem, hckeq.symm, hpred⟩

theorem fallback_conf_bounds (content title : List Char) :
    (0 ≤ (AIService.fallback_extraction content title).confidence.dates ∧
      (AIService.fallback_extraction content title).confidence.dates ≤ 1) ∧
    (0 ≤ (AIService.fallback_extraction content title).confidence.eligibility ∧
      (AIService.fallback_extraction content title).confidence.eligibility
        ≤ 1) ∧
    (0 ≤ (AIService.fallback_extraction content title).confidence.overall ∧
      (AIService.fallback_extraction content title).confidence.overall ≤ 1)
    := by
  simp only [fallback_confidence_values]
  norm_num

/-- C1: `extract_structured_data` is total — in the embedding it returns a
fully-populated `ExtractedData` on every input.  Whenever the AI client is
unavailable, AI processing is disabled, or the response is malformed (a
raised exception, or JSON that is not an object), the result is exactly the
deterministic fallback.  Every confidence value of every result lies in
[0,1]; the fallback's confidence is `dates 0.3, eligibility 0.4, overall
0.35`; and the fallback's categories are drawn solely from the keyword
table (each category is a table key one of whose keywords occurs in the
text). -/
theorem C1_extract_structured_data_degrades_to_fallback
    (clientAvailable processingEnabled : Bool) (response : Except Unit JVal)
    (content title : List Char) :
    ((clientAvailable = false ∨ processingEnabled = false ∨
        response = Except.error () ∨
        (∃ v, response = Except.ok v ∧ v.isObj = false)) →
      AIService.extract_structured_data clientAvailable processingEnabled
          response content title =
        AIService.fallback_extraction content title) ∧
    ((0 ≤ (AIService.extract_structured_data clientAvailable
            processingEnabled response content title).confidence.dates ∧
        (AIService.extract_structured_data clientAvailable processingEnabled
            response content title).confidence.dates ≤ 1) ∧
      (0 ≤ (AIService.extract_structured_data clientAvailable
            processingEnabled response content title).confidence.eligibility ∧
        (AIService.extract_structured_data clientAvailable processingEnabled
            response content title).confidence.eligibility ≤ 1) ∧
      (0 ≤ (AIService.extract_structured_data clientAvailable
            processingEnabled response content title).confidence.overall ∧
        (AIService.extract_structured_data clientAvailable processingEnabled
            response content title).confidence.overall ≤ 1)) ∧
    (AIService.fallback_extraction content title).confidence.overall
      = 0.35 ∧
    (AIService.fallback_extraction content title).confidence.dates = 0.3 ∧
    (AIService.fallback_extraction content title).confidence.eligibility
      = 0.4 ∧
    (∀ c ∈ (AIService.fallback_extraction content title).categories,
      ∃ p ∈ AIService.categoryKeywords, c = JVal.str p.1 ∧
        p.2.any (fun k => containsTxt (lowTxt (title ++ ' ' :: content)) k)
          = true) := by
  refine ⟨?_, ?_, rfl, rfl, rfl, fallback_categories_from_table content title⟩
  · intro h
    unfold AIService.extract_structured_data
    rcases h with h | h | h | ⟨v, hv, hobj⟩
    · subst h; simp
    · subst h; simp
    · subst h
      split
      · rfl
      · rfl
    · subst hv
      split
      · rfl
      · cases v with
        | obj kvs => simp [JVal.isObj] at hobj
        | null => rfl
        | num q => rfl
        | str s => rfl
        | bool b => rfl
        | list l => rfl
  · unfold AIService.extract_structured_data
    split
    · exact fallback_conf_bounds content title
    · split
      · exact fallback_conf_bounds content title
      · rw [validate_confidence_proj]
        exact validate_conf_bounds _
      · exact fallback_conf_bounds content title

/-- Witness for C1: with the client unavailable, a concrete call lands on
the fallback. -/
theorem C1_witness :
    AIService.extract_structured_data false true (Except.error ())
        "Exam content".toList "Exam title".toList =
      AIService.fallback_extraction "Exam content".toList
        "Exam title".toList :=
  (C1_extract_structured_data_degrades_to_fallback false true
    (Except.error ()) "Exam content".toList "Exam title".toList).1
    (Or.inl rfl)

/-! ## Lemmas about persistence -/

theorem save_foldl_spec (db batch : List ImprovedSSCCrawler.AnnData)
    (pre : List ImprovedSSCCrawler.AnnData) (n : Nat) :
    batch.foldl
      (fun acc a =>
        if db.any (fun s => s.source_url == a.source_url) then acc
        else (acc.1 ++ [a], acc.2 + 1))
      (pre, n) =
    (pre ++ batch.filter
        (fun a => !db.any (fun s => s.source_url == a.source_url)),
      n + (batch.filter
        (fun a => !db.any (fun s => s.source_url == a.source_url))).length)
    := by
  induction batch generalizing pre n with
  | nil => simp
  | cons a t ih =>
    by_cases h : db.any (fun s => s.source_url == a.source_url)
    · simp only [List.foldl_cons, h, if_pos, List.filter_cons, h,
        Bool.not_true, ih]
      simp
    · rw [List.foldl_cons, if_neg h, ih,
        List.filter_cons_of_pos (by simp [h])]
      simp only [Prod.mk.injEq, List.append_assoc, List.singleton_append,
        List.length_cons, true_and]
      omega

theorem save_spec (db batch : List ImprovedSSCCrawler.AnnData) :
    ImprovedSSCCrawler.save_announcements db batch =
      (db ++ batch.filter
          (fun a => !db.any (fun s => s.source_url == a.source_url)),
        (batch.filter
          (fun a => !db.any (fun s => s.source_url == a.source_url))).length)
    := by
  unfold ImprovedSSCCrawler.save_announcements
  rw [save_foldl_spec]
  simp

theorem countUrl_append (xs ys : List ImprovedSSCCrawler.AnnData)
    (u : String) : countUrl (xs ++ ys) u = countUrl xs u + countUrl ys u := by
  unfold countUrl
  rw [List.filter_append, List.length_append]

theorem url_present_after_save (db batch : List ImprovedSSCCrawler.AnnData)
    (a : ImprovedSSCCrawler.AnnData) (ha : a ∈ batch) :
    ((ImprovedSSCCrawler.save_announcements db batch).1).any
      (fun s => s.source_url == a.source_url) = true := by
  rw [save_spec]
  simp only [List.any_append, Bool.or_eq_true]
  by_cases hdb : db.any (fun s => s.source_url == a.source_url) = true
  · exact Or.inl hdb
  · right
    rw [List.any_eq_true]
    refine ⟨a, ?_, by simp⟩
    rw [List.mem_filter]
    exact ⟨ha, by simp [hdb]⟩

/-- C2 (counterexample): a single batch that lists the same source URL
twice inserts two rows for that URL — the claimed "at most one canonical
Announcement per source URL" fails, because the existence check sees only
previously committed rows (`autoflush=False`) and the model/table has no
uniqueness constraint on `source_url`. -/
theorem C2_counterexample :
    (ImprovedSSCCrawler.save_announcements []
        [mkAnnData "https://ssc.nic.in/notification/x",
         mkAnnData "https://ssc.nic.in/notification/x"]).2 = 2 ∧
    countUrl (ImprovedSSCCrawler.save_announcements []
        [mkAnnData "https://ssc.nic.in/notification/x",
         mkAnnData "https://ssc.nic.in/notification/x"]).1
      "https://ssc.nic.in/notification/x" = 2 ∧ ¬(2 ≤ 1) := by
  refine ⟨rfl, rfl, by omega⟩

/-- C2 (amended): persistence is idempotent across runs — re-running
`save_announcements` on the unchanged batch inserts nothing
(`saved_count = 0`); and per-URL uniqueness is preserved provided the batch
itself mentions each source URL at most once (a batch repeating a URL
inserts it twice, as the counterexample shows). -/
theorem C2_save_announcements_idempotent
    (db batch : List ImprovedSSCCrawler.AnnData) :
    ((ImprovedSSCCrawler.save_announcements
        (ImprovedSSCCrawler.save_announcements db batch).1 batch).2 = 0) ∧
    (∀ u : String, countUrl db u ≤ 1 →
      (batch.filter fun a => a.source_url == u).length ≤ 1 →
      countUrl (ImprovedSSCCrawler.save_announcements db batch).1 u ≤ 1) := by
  constructor
  · have hall : ∀ a ∈ batch,
        ((ImprovedSSCCrawler.save_announcements db batch).1).any
          (fun s => s.source_url == a.source_url) = true :=
      fun a ha => url_present_after_save db batch a ha
    rw [save_spec]
    have : batch.filter
        (fun a => !((ImprovedSSCCrawler.save_announcements db batch).1).any
          (fun s => s.source_url == a.source_url)) = [] := by
      rw [List.filter_eq_nil_iff]
      intro a ha
      simp [hall a ha]
    rw [this]
    rfl
  · intro u hdb hbatch
    rw [save_spec, countUrl_append]
    by_cases hpos : 0 < countUrl db u
    · have hzero : countUrl (batch.filter
          (fun a => !db.any (fun s => s.source_url == a.source_url))) u = 0
          := by
        unfold countUrl at hpos ⊢
        have hne := List.length_pos.mp hpos
        rcases List.exists_mem_of_ne_nil _ hne with ⟨r, hr⟩
        have hrdb := (List.mem_filter.mp hr).1
        have hru := (List.mem_filter.mp hr).2
        rw [List.length_eq_zero, List.filter_eq_nil_iff]
        intro a ha hau
        rcases List.mem_filter.mp ha with ⟨_, hpa⟩
        have hru' : r.source_url = u := eq_of_beq hru
        have hau' : a.source_url = u := eq_of_beq hau
        have : db.any (fun s => s.source_url == a.source_url) = true := by
          rw [List.any_eq_true]
          exact ⟨r, hrdb, by simp [hru', hau']⟩
        simp [this] at hpa
      omega
    · have hle : countUrl (batch.filter
          (fun a => !db.any (fun s => s.source_url == a.source_url))) u ≤
          (batch.filter fun a => a.source_url == u).length := by
        unfold countUrl
        exact ((List.filter_sublist _).filter _).length_le
      omega

/-- Witness for C2's amended uniqueness clause at a concrete batch. -/
theorem C2_witness :
    countUrl (ImprovedSSCCrawler.save_announcements []
      [mkAnnData "https://example.org/a"]).1 "https://example.org/a" ≤ 1 :=
  (C2_save_announcements_idempotent [] [mkAnnData "https://example.org/a"]).2
    "https://example.org/a" (by decide) (by decide)

/-! ## Lemmas about the AI update of stored rows -/

theorem jset_ne_nil (kvs : List (String × JVal)) (k : String) (v : JVal) :
    jset kvs k v ≠ [] := by
  cases kvs with
  | nil => simp [jset]
  | cons kv t =>
    obtain ⟨k', v'⟩ := kv
    by_cases h : k' = k <;> simp [jset, h]

theorem fieldsPreserved_refl (a : AIEnhancedCrawler.Announcement) :
    fieldsPreserved a a := by
  unfold fieldsPreserved
  exact ⟨id, id, id, id, id, id, id, id⟩

theorem fieldsPreserved_trans {a b c : AIEnhancedCrawler.Announcement}
    (h1 : fieldsPreserved a b) (h2 : fieldsPreserved b c) :
    fieldsPreserved a c := by
  unfold fieldsPreserved at *
  obtain ⟨p1, p2, p3, p4, p5, p6, p7, p8⟩ := h1
  obtain ⟨q1, q2, q3, q4, q5, q6, q7, q8⟩ := h2
  exact ⟨fun h => q1 (p1 h), fun h => q2 (p2 h), fun h => q3 (p3 h),
    fun h => q4 (p4 h), fun h => q5 (p5 h), fun h => q6 (p6 h),
    fun h => q7 (p7 h), fun h => q8 (p8 h)⟩

theorem fp_markProcessed (a : AIEnhancedCrawler.Announcement)
    (nowIso : String) :
    fieldsPreserved a (AIEnhancedCrawler.markProcessed a nowIso) := by
  unfold AIEnhancedCrawler.markProcessed fieldsPreserved
  refine ⟨id, id, id, id, id, id, id, ?_⟩
  intro _
  simp [JVal.truthy, jset_ne_nil]

theorem fp_summary (a : AIEnhancedCrawler.Announcement)
    (d : AIService.ExtractedData) (nowIso : String) :
    fieldsPreserved a (AIEnhancedCrawler.update_step_summary a d nowIso)
    := by
  unfold AIEnhancedCrawler.update_step_summary
  split
  · split
    · refine fieldsPreserved_trans ?_ (fp_markProcessed _ nowIso)
      unfold fieldsPreserved
      exact ⟨id, id, id, id, id, id, fun _ => rfl, id⟩
    · exact fp_markProcessed a nowIso
  · split
    · exact fieldsPreserved_refl a
    · exact fp_markProcessed a nowIso

theorem append_left_ne_nil {α : Type} (xs ys : List α) (h : xs ≠ []) :
    xs ++ ys ≠ [] := by
  cases xs with
  | nil => exact absurd rfl h
  | cons x t => simp

theorem fp_tags (a : AIEnhancedCrawler.Announcement)
    (d : AIService.ExtractedData) (nowIso : String) :
    fieldsPreserved a (AIEnhancedCrawler.update_step_tags a d nowIso) := by
  unfold AIEnhancedCrawler.update_step_tags
  by_cases h1 : ((a.tags.getD [] ++ d.tags).any fun v => !v.hashable) = true
  · rw [if_pos h1]
    exact fieldsPreserved_refl a
  · rw [if_neg h1]
    dsimp only
    by_cases h2 : (d.priority_score != 0) = true
    · simp only [h2, if_true]
      refine fieldsPreserved_trans ?_ (fp_summary _ d nowIso)
      unfold fieldsPreserved
      refine ⟨id, id, id, id, id, ?_, id, ?_⟩
      · intro h
        exact take_ne_nil_of_ne_nil _ 15
          (jdedup_ne_nil _ (append_left_ne_nil _ _ h)) (by omega)
      · intro _
        simp [JVal.truthy, AIService.confToObj]
    · simp only [h2, if_false, Bool.false_eq_true]
      refine fieldsPreserved_trans ?_ (fp_summary _ d nowIso)
      unfold fieldsPreserved
      refine ⟨id, id, id, id, id, ?_, id, ?_⟩
      · intro h
        exact take_ne_nil_of_ne_nil _ 15
          (jdedup_ne_nil _ (append_left_ne_nil _ _ h)) (by omega)
      · intro _
        simp [JVal.truthy, AIService.confToObj]

theorem fp_merge (a : AIEnhancedCrawler.Announcement)
    (d : AIService.ExtractedData) (nowIso : String) :
    fieldsPreserved a (AIEnhancedCrawler.update_step_merge a d nowIso) := by
  unfold AIEnhancedCrawler.update_step_merge
  by_cases h1 :
      ((a.categories.getD [] ++ d.categories).any fun v => !v.hashable) = true
  · rw [if_pos h1]
    exact fieldsPreserved_refl a
  · rw [if_neg h1]
    refine fieldsPreserved_trans ?_ (fp_tags _ d nowIso)
    unfold fieldsPreserved
    refine ⟨id, id, id, id, ?_, id, id, id⟩
    intro h
    exact take_ne_nil_of_ne_nil _ 10
      (jdedup_ne_nil _ (append_left_ne_nil _ _ h)) (by omega)

theorem fp_after_deadline (a : AIEnhancedCrawler.Announcement)
    (d : AIService.ExtractedData) (nowIso : String) :
    fieldsPreserved a (AIEnhancedCrawler.update_after_deadline a d nowIso)
    := by
  unfold AIEnhancedCrawler.update_after_deadline
  dsimp only
  split <;> split <;>
    · refine fieldsPreserved_trans ?_ (fp_merge _ d nowIso)
      unfold fieldsPreserved
      refine ⟨id, id, ?_, ?_, id, id, id, id⟩ <;> intro h <;> simp_all

theorem fp_deadline (a : AIEnhancedCrawler.Announcement)
    (d : AIService.ExtractedData) (nowIso : String) :
    fieldsPreserved a (AIEnhancedCrawler.update_step_deadline a d nowIso)
    := by
  unfold AIEnhancedCrawler.update_step_deadline
  split
  · split
    · dsimp only
      split
      · refine fieldsPreserved_trans ?_ (fp_after_deadline _ d nowIso)
        unfold fieldsPreserved
        refine ⟨id, ?_, id, id, id, id, id, id⟩
        intro _
        rfl
      · exact fp_after_deadline a d nowIso
    · exact fieldsPreserved_refl a
  · exact fp_after_deadline a d nowIso

theorem nLU_refl (d : AIService.ExtractedData)
    (a : AIEnhancedCrawler.Announcement) : nullsLeaveUnchanged d a a := by
  unfold nullsLeaveUnchanged
  exact ⟨fun _ => rfl, fun _ => rfl, fun _ => rfl, fun _ => rfl,
    fun _ => rfl, fun _ => rfl⟩

theorem nLU_trans {d : AIService.ExtractedData}
    {a b c : AIEnhancedCrawler.Announcement}
    (h1 : nullsLeaveUnchanged d a b) (h2 : nullsLeaveUnchanged d b c) :
    nullsLeaveUnchanged d a c := by
  unfold nullsLeaveUnchanged at *
  obtain ⟨p1, p2, p3, p4, p5, p6⟩ := h1
  obtain ⟨q1, q2, q3, q4, q5, q6⟩ := h2
  exact ⟨fun h => (q1 h).trans (p1 h), fun h => (q2 h).trans (p2 h),
    fun h => (q3 h).trans (p3 h), fun h => (q4 h).trans (p4 h),
    fun h => (q5 h).trans (p5 h), fun h => (q6 h).trans (p6 h)⟩

theorem nLU_markProcessed (d : AIService.ExtractedData)
    (a : AIEnhancedCrawler.Announcement) (n : String) :
    nullsLeaveUnchanged d a (AIEnhancedCrawler.markProcessed a n) := by
  unfold AIEnhancedCrawler.markProcessed nullsLeaveUnchanged
  exact ⟨fun _ => rfl, fun _ => rfl, fun _ => rfl, fun _ => rfl,
    fun _ => rfl, fun _ => rfl⟩

theorem nLU_summary (a : AIEnhancedCrawler.Announcement)
    (d : AIService.ExtractedData) (n : String) :
    nullsLeaveUnchanged d a (AIEnhancedCrawler.update_step_summary a d n)
    := by
  unfold AIEnhancedCrawler.update_step_summary
  split
  · next s heq =>
    split
    · next hc =>
      unfold nullsLeaveUnchanged
      refine ⟨fun _ => rfl, fun _ => rfl, fun _ => rfl, fun _ => rfl,
        fun _ => rfl, ?_⟩
      intro h6
      rw [heq] at h6
      simp only [JVal.truthy, bne_eq_false_iff_eq] at h6
      rw [h6] at hc
      simp at hc
    · exact nLU_markProcessed d a n
  · split
    · exact nLU_refl d a
    · exact nLU_markProcessed d a n

theorem nLU_tags (a : AIEnhancedCrawler.Announcement)
    (d : AIService.ExtractedData) (n : String) :
    nullsLeaveUnchanged d a (AIEnhancedCrawler.update_step_tags a d n)
    := by
  unfold AIEnhancedCrawler.update_step_tags
  by_cases h1 : ((a.tags.getD [] ++ d.tags).any fun v => !v.hashable) = true
  · rw [if_pos h1]
    exact nLU_refl d a
  · rw [if_neg h1]
    dsimp only
    by_cases h2 : (d.priority_score != 0) = true
    · simp only [h2, if_true]
      refine nLU_trans ?_ (nLU_summary _ d n)
      unfold nullsLeaveUnchanged
      refine ⟨fun _ => rfl, fun _ => rfl, fun _ => rfl, fun _ => rfl, ?_,
        fun _ => rfl⟩
      intro h5
      rw [h5] at h2
      simp at h2
    · simp only [h2, if_false, Bool.false_eq_true]
      refine nLU_trans ?_ (nLU_summary _ d n)
      unfold nullsLeaveUnchanged
      exact ⟨fun _ => rfl, fun _ => rfl, fun _ => rfl, fun _ => rfl,
        fun _ => rfl, fun _ => rfl⟩

theorem nLU_merge (a : AIEnhancedCrawler.Announcement)
    (d : AIService.ExtractedData) (n : String) :
    nullsLeaveUnchanged d a (AIEnhancedCrawler.update_step_merge a d n)
    := by
  unfold AIEnhancedCrawler.update_step_merge
  by_cases h1 :
      ((a.categories.getD [] ++ d.categories).any fun v => !v.hashable)
        = true
  · rw [if_pos h1]
    exact nLU_refl d a
  · rw [if_neg h1]
    refine nLU_trans ?_ (nLU_tags _ d n)
    unfold nullsLeaveUnchanged
    exact ⟨fun _ => rfl, fun _ => rfl, fun _ => rfl, fun _ => rfl,
      fun _ => rfl, fun _ => rfl⟩

theorem nLU_afterDl (a : AIEnhancedCrawler.Announcement)
    (d : AIService.ExtractedData) (n : String) :
    nullsLeaveUnchanged d a (AIEnhancedCrawler.update_after_deadline a d n)
    := by
  unfold AIEnhancedCrawler.update_after_deadline
  dsimp only
  by_cases he : d.eligibility.truthy = true
  · rw [if_pos he]
    by_cases hl : (!d.location.isEmpty) = true
    · rw [if_pos hl]
      refine nLU_trans ?_ (nLU_merge _ d n)
      unfold nullsLeaveUnchanged
      refine ⟨fun _ => rfl, fun _ => rfl, ?_, ?_, fun _ => rfl,
        fun _ => rfl⟩
      · intro h3
        rw [h3] at he
        simp at he
      · intro h4
        rw [h4] at hl
        simp at hl
    · rw [if_neg hl]
      refine nLU_trans ?_ (nLU_merge _ d n)
      unfold nullsLeaveUnchanged
      refine ⟨fun _ => rfl, fun _ => rfl, ?_, fun _ => rfl, fun _ => rfl,
        fun _ => rfl⟩
      intro h3
      rw [h3] at he
      simp at he
  · rw [if_neg he]
    by_cases hl : (!d.location.isEmpty) = true
    · rw [if_pos hl]
      refine nLU_trans ?_ (nLU_merge _ d n)
      unfold nullsLeaveUnchanged
      refine ⟨fun _ => rfl, fun _ => rfl, fun _ => rfl, ?_, fun _ => rfl,
        fun _ => rfl⟩
      intro h4
      rw [h4] at hl
      simp at hl
    · rw [if_neg hl]
      exact nLU_merge a d n

theorem nLU_deadline (a : AIEnhancedCrawler.Announcement)
    (d : AIService.ExtractedData) (n : String) :
    nullsLeaveUnchanged d a (AIEnhancedCrawler.update_step_deadline a d n)
    := by
  unfold AIEnhancedCrawler.update_step_deadline
  by_cases hdl : d.application_deadline.truthy = true
  · rw [if_pos hdl]
    split
    · dsimp only
      split
      · refine nLU_trans ?_ (nLU_afterDl _ d n)
        unfold nullsLeaveUnchanged
        refine ⟨fun _ => rfl, ?_, fun _ => rfl, fun _ => rfl, fun _ => rfl,
          fun _ => rfl⟩
        intro h2
        rw [h2] at hdl
        simp at hdl
      · exact nLU_afterDl a d n
    · exact nLU_refl d a
  · rw [if_neg hdl]
    exact nLU_afterDl a d n

/-- C3 (amended): re-processing never replaces a populated field with a
null/empty value, and for every directly-assigned field (exam dates,
application deadline, eligibility, location, priority score, summary) a
missing/null new value leaves the stored value unchanged.  Categories and
tags carry only the populated-stays-populated guarantee: the source always
set-merges and truncates them, even against an empty new list.  The
confidence map is replaced wholesale (see the counterexample for the drop
in overall confidence). -/
theorem C3_update_never_nulls_populated_fields
    (a : AIEnhancedCrawler.Announcement) (d : AIService.ExtractedData)
    (nowIso : String) :
    fieldsPreserved a
      (AIEnhancedCrawler.update_announcement_with_ai_data a d nowIso) ∧
    nullsLeaveUnchanged d a
      (AIEnhancedCrawler.update_announcement_with_ai_data a d nowIso) := by
  constructor
  · unfold AIEnhancedCrawler.update_announcement_with_ai_data
    dsimp only
    split
    · next hx =>
      refine fieldsPreserved_trans ?_ (fp_deadline _ d nowIso)
      unfold fieldsPreserved
      refine ⟨?_, id, id, id, id, id, id, id⟩
      intro _ hnil
      have hnil2 : d.exam_dates = [] := hnil
      rw [hnil2] at hx
      simp at hx
    · exact fp_deadline a d nowIso
  · unfold AIEnhancedCrawler.update_announcement_with_ai_data
    dsimp only
    split
    · next hx =>
      refine nLU_trans ?_ (nLU_deadline _ d nowIso)
      unfold nullsLeaveUnchanged
      refine ⟨?_, fun _ => rfl, fun _ => rfl, fun _ => rfl, fun _ => rfl,
        fun _ => rfl⟩
      intro h1
      rw [h1] at hx
      simp at hx
    · exact nLU_deadline a d nowIso

/-- C3 (counterexample): re-processing CAN lower the stored overall
confidence.  A row stored with overall confidence 0.9 that is re-processed
while the AI service falls back (overall 0.35) ends up with overall 0.35:
the update replaces the confidence map wholesale whenever the extraction
provides one, with no comparison against the stored value. -/
theorem C3_counterexample :
    confVal highConfRow.confidence "overall" = some 0.9 ∧
    confVal (AIEnhancedCrawler.update_announcement_with_ai_data highConfRow
        (AIService.fallback_extraction [] []) "2025-01-01T00:00:00").confidence
      "overall" = some 0.35 ∧
    (0.35 : ℚ) < 0.9 := by
  refine ⟨rfl, rfl, by norm_num⟩

/-- Witness for C3's amended statement at a concrete row: the populated
confidence column stays populated, and the null deadline and summary of the
fallback payload leave those stored values unchanged. -/
theorem C3_witness :
    (AIEnhancedCrawler.update_announcement_with_ai_data highConfRow
      (AIService.fallback_extraction [] []) "T").confidence.truthy = true ∧
    (AIEnhancedCrawler.update_announcement_with_ai_data highConfRow
        (AIService.fallback_extraction [] []) "T").application_deadline =
      highConfRow.application_deadline ∧
    (AIEnhancedCrawler.update_announcement_with_ai_data highConfRow
        (AIService.fallback_extraction [] []) "T").summary =
      highConfRow.summary := by
  have h := C3_update_never_nulls_populated_fields highConfRow
    (AIService.fallback_extraction [] []) "T"
  have h1 := h.1
  have h2 := h.2
  unfold fieldsPreserved at h1
  unfold nullsLeaveUnchanged at h2
  exact ⟨h1.2.2.2.2.2.2.2 (by decide), h2.2.1 (by decide),
    h2.2.2.2.2.2 (by decide)⟩

/-! ## Lemmas about duplicate marking -/

theorem jget_jset_ne (kvs : List (String × JVal)) (k k' : String) (v : JVal)
    (h : k' ≠ k) : jget (jset kvs k v) k' = jget kvs k' := by
  induction kvs with
  | nil =>
    simp only [jset, jget]
    rw [if_neg (fun hh => h hh.symm)]
  | cons kv t ih =>
    obtain ⟨k0, v0⟩ := kv
    by_cases h0 : k0 = k
    · subst h0
      simp only [jset, if_pos rfl, jget]
      rw [if_neg (fun hh => h hh.symm), if_neg (fun hh => h hh.symm)]
    · simp only [jset, if_neg h0, jget]
      by_cases h1 : k0 = k'
      · rw [if_pos h1, if_pos h1]
      · rw [if_neg h1, if_neg h1, ih]

theorem markDupRow_created (r : AIEnhancedCrawler.Announcement) (s : ℚ)
    (root : Nat) :
    (AIEnhancedCrawler.markDupRow r s root).created_at = r.created_at := rfl

theorem markDupRow_id (r : AIEnhancedCrawler.Announcement) (s : ℚ)
    (root : Nat) : (AIEnhancedCrawler.markDupRow r s root).id = r.id := rfl

theorem markDupRow_isDup (r : AIEnhancedCrawler.Announcement) (s : ℚ)
    (root : Nat) :
    (AIEnhancedCrawler.markDupRow r s root).is_duplicate = true := rfl

theorem markDupRow_dupOf (r : AIEnhancedCrawler.Announcement) (s : ℚ)
    (root : Nat) :
    dupOfVal (AIEnhancedCrawler.markDupRow r s root).confidence =
      some (Nat.repr root) := by
  unfold dupOfVal AIEnhancedCrawler.markDupRow AIEnhancedCrawler.confObjOf
  dsimp only
  rw [jget_jset_self]

theorem markDupRow_sim (r : AIEnhancedCrawler.Announcement) (s : ℚ)
    (root : Nat) :
    confVal (AIEnhancedCrawler.markDupRow r s root).confidence
      "duplicate_similarity" = some s := by
  unfold confVal AIEnhancedCrawler.markDupRow AIEnhancedCrawler.confObjOf
  dsimp only
  rw [jget_jset_ne _ _ _ _ (by decide), jget_jset_self]
  rfl

theorem markPair_length (rows : List AIEnhancedCrawler.Announcement)
    (p : Nat × Nat × ℚ) :
    (AIEnhancedCrawler.markPair rows p).length = rows.length := by
  unfold AIEnhancedCrawler.markPair
  split
  · dsimp only
    split <;> rw [List.length_set]
  · rfl

theorem markPair_created (rows : List AIEnhancedCrawler.Announcement)
    (p : Nat × Nat × ℚ) (k : Nat) :
    ((AIEnhancedCrawler.markPair rows p).getD k
        AIEnhancedCrawler.dummyAnn).created_at =
      (rows.getD k AIEnhancedCrawler.dummyAnn).created_at := by
  unfold AIEnhancedCrawler.markPair
  split
  · next hb =>
    simp only [Bool.and_eq_true, decide_eq_true_eq] at hb
    dsimp only
    split <;>
    · rw [List.getD_eq_getElem?_getD, List.getD_eq_getElem?_getD,
        List.getElem?_set]
      split
      · next heq =>
        subst heq
        rw [if_pos (by omega)]
        rw [List.getElem?_eq_getElem (by omega)]
        simp [markDupRow_created, List.getD_eq_getElem?_getD,
          List.getElem?_eq_getElem, hb.1, hb.2]
      · rw [List.getD_eq_getElem?_getD]
  · rfl

theorem markPair_id (rows : List AIEnhancedCrawler.Announcement)
    (p : Nat × Nat × ℚ) (k : Nat) :
    ((AIEnhancedCrawler.markPair rows p).getD k
        AIEnhancedCrawler.dummyAnn).id =
      (rows.getD k AIEnhancedCrawler.dummyAnn).id := by
  unfold AIEnhancedCrawler.markPair
  split
  · next hb =>
    simp only [Bool.and_eq_true, decide_eq_true_eq] at hb
    dsimp only
    split <;>
    · rw [List.getD_eq_getElem?_getD, List.getD_eq_getElem?_getD,
        List.getElem?_set]
      split
      · next heq =>
        subst heq
        rw [if_pos (by omega)]
        rw [List.getElem?_eq_getElem (by omega)]
        simp [markDupRow_id, List.getD_eq_getElem?_getD,
          List.getElem?_eq_getElem, hb.1, hb.2]
      · rw [List.getD_eq_getElem?_getD]
  · rfl

theorem markPair_isDup_mono (rows : List AIEnhancedCrawler.Announcement)
    (p : Nat × Nat × ℚ) (k : Nat)
    (h : (rows.getD k AIEnhancedCrawler.dummyAnn).is_duplicate = true) :
    ((AIEnhancedCrawler.markPair rows p).getD k
      AIEnhancedCrawler.dummyAnn).is_duplicate = true := by
  unfold AIEnhancedCrawler.markPair
  split
  · next hb =>
    simp only [Bool.and_eq_true, decide_eq_true_eq] at hb
    dsimp only
    split <;>
    · rw [List.getD_eq_getElem?_getD, List.getElem?_set]
      split
      · next heq =>
        subst heq
        rw [if_pos (by omega)]
        simp [markDupRow_isDup]
      · rw [List.getD_eq_getElem?_getD] at h
        exact h
  · exact h

theorem foldl_markPair_length (pairs : List (Nat × Nat × ℚ))
    (rows : List AIEnhancedCrawler.Announcement) :
    (pairs.foldl AIEnhancedCrawler.markPair rows).length = rows.length := by
  induction pairs generalizing rows with
  | nil => rfl
  | cons p rest ih =>
    rw [List.foldl_cons, ih, markPair_length]

theorem foldl_markPair_created (pairs : List (Nat × Nat × ℚ))
    (rows : List AIEnhancedCrawler.Announcement) (k : Nat) :
    ((pairs.foldl AIEnhancedCrawler.markPair rows).getD k
        AIEnhancedCrawler.dummyAnn).created_at =
      (rows.getD k AIEnhancedCrawler.dummyAnn).created_at := by
  induction pairs generalizing rows with
  | nil => rfl
  | cons p rest ih =>
    rw [List.foldl_cons, ih, markPair_created]

theorem foldl_markPair_id (pairs : List (Nat × Nat × ℚ))
    (rows : List AIEnhancedCrawler.Announcement) (k : Nat) :
    ((pairs.foldl AIEnhancedCrawler.markPair rows).getD k
        AIEnhancedCrawler.dummyAnn).id =
      (rows.getD k AIEnhancedCrawler.dummyAnn).id := by
  induction pairs generalizing rows with
  | nil => rfl
  | cons p rest ih =>
    rw [List.foldl_cons, ih, markPair_id]

theorem foldl_markPair_isDup_mono (pairs : List (Nat × Nat × ℚ))
    (rows : List AIEnhancedCrawler.Announcement) (k : Nat)
    (h : (rows.getD k AIEnhancedCrawler.dummyAnn).is_duplicate = true) :
    ((pairs.foldl AIEnhancedCrawler.markPair rows).getD k
      AIEnhancedCrawler.dummyAnn).is_duplicate = true := by
  induction pairs generalizing rows with
  | nil => exact h
  | cons p rest ih =>
    rw [List.foldl_cons]
    exact ih _ (markPair_isDup_mono rows p k h)

theorem markPair_marks_later (rows : List AIEnhancedCrawler.Announcement)
    (i j : Nat) (σ : ℚ) (hi : i < rows.length) (hj : j < rows.length)
    (hlt : (rows.getD i AIEnhancedCrawler.dummyAnn).created_at <
      (rows.getD j AIEnhancedCrawler.dummyAnn).created_at) :
    ((AIEnhancedCrawler.markPair rows (i, j, σ)).getD j
        AIEnhancedCrawler.dummyAnn).is_duplicate = true ∧
    dupOfVal ((AIEnhancedCrawler.markPair rows (i, j, σ)).getD j
        AIEnhancedCrawler.dummyAnn).confidence =
      some (Nat.repr (rows.getD i AIEnhancedCrawler.dummyAnn).id) ∧
    confVal ((AIEnhancedCrawler.markPair rows (i, j, σ)).getD j
        AIEnhancedCrawler.dummyAnn).confidence "duplicate_similarity" =
      some σ ∧
    (AIEnhancedCrawler.markPair rows (i, j, σ)).getD i
        AIEnhancedCrawler.dummyAnn =
      rows.getD i AIEnhancedCrawler.dummyAnn := by
  have hne : i ≠ j := by
    intro he
    rw [he] at hlt
    exact lt_irrefl _ hlt
  unfold AIEnhancedCrawler.markPair
  rw [if_pos (by simp [hi, hj])]
  dsimp only
  rw [if_pos hlt]
  have hgetj : (rows.set j (AIEnhancedCrawler.markDupRow
      (rows.getD j AIEnhancedCrawler.dummyAnn) σ
      (rows.getD i AIEnhancedCrawler.dummyAnn).id)).getD j
      AIEnhancedCrawler.dummyAnn =
      AIEnhancedCrawler.markDupRow
        (rows.getD j AIEnhancedCrawler.dummyAnn) σ
        (rows.getD i AIEnhancedCrawler.dummyAnn).id := by
    rw [List.getD_eq_getElem?_getD, List.getElem?_set, if_pos rfl,
      if_pos hj]
    rfl
  have hgeti : (rows.set j (AIEnhancedCrawler.markDupRow
      (rows.getD j AIEnhancedCrawler.dummyAnn) σ
      (rows.getD i AIEnhancedCrawler.dummyAnn).id)).getD i
      AIEnhancedCrawler.dummyAnn =
      rows.getD i AIEnhancedCrawler.dummyAnn := by
    rw [List.getD_eq_getElem?_getD, List.getElem?_set,
      if_neg (fun hh => hne hh.symm), List.getD_eq_getElem?_getD]
  rw [hgetj, hgeti]
  exact ⟨markDupRow_isDup _ _ _, markDupRow_dupOf _ _ _,
    markDupRow_sim _ _ _, rfl⟩

/-- C4 (counterexample): with three mutually similar rows created at times
0 < 1 < 2, the pair `(0, 2)` is flagged and row 0 is the earlier record,
yet after the pass row 2's `duplicate_of` is `"1"` (row 1's id), not row
0's id `"0"`: a later overlapping pair overwrote the link. -/
theorem C4_counterexample :
    (0, 2, mkRat 9 10) ∈ rows3Pairs ∧
    (rows3.getD 0 AIEnhancedCrawler.dummyAnn).created_at <
      (rows3.getD 2 AIEnhancedCrawler.dummyAnn).created_at ∧
    dupOfVal (((AIEnhancedCrawler.detect_duplicates_pass simConst
        rows3).getD 2 AIEnhancedCrawler.dummyAnn).confidence) = some "1" ∧
    Nat.repr ((rows3.getD 0 AIEnhancedCrawler.dummyAnn).id) = "0" ∧
    ("1" : String) ≠ "0" := by
  refine ⟨by decide, by decide, by decide, by decide, by decide⟩

/-- C4 (amended): when a flagged pair is processed, the row with the later
`created_at` is marked duplicate, its duplicate-of is set to the earlier
row's id with the similarity stored, and the earlier row is untouched; the
duplicate flag set this way survives the rest of the pass.  (The
duplicate-of reference itself can later be overwritten by another flagged
pair — see the counterexample — though only ever to another earlier-created
row.) -/
theorem C4_later_record_marked_duplicate :
    (∀ (rows : List AIEnhancedCrawler.Announcement) (i j : Nat) (σ : ℚ),
      i < rows.length → j < rows.length →
      (rows.getD i AIEnhancedCrawler.dummyAnn).created_at <
        (rows.getD j AIEnhancedCrawler.dummyAnn).created_at →
      ((AIEnhancedCrawler.markPair rows (i, j, σ)).getD j
          AIEnhancedCrawler.dummyAnn).is_duplicate = true ∧
      dupOfVal ((AIEnhancedCrawler.markPair rows (i, j, σ)).getD j
          AIEnhancedCrawler.dummyAnn).confidence =
        some (Nat.repr (rows.getD i AIEnhancedCrawler.dummyAnn).id) ∧
      confVal ((AIEnhancedCrawler.markPair rows (i, j, σ)).getD j
          AIEnhancedCrawler.dummyAnn).confidence "duplicate_similarity" =
        some σ ∧
      (AIEnhancedCrawler.markPair rows (i, j, σ)).getD i
          AIEnhancedCrawler.dummyAnn =
        rows.getD i AIEnhancedCrawler.dummyAnn) ∧
    (∀ (rows : List AIEnhancedCrawler.Announcement)
      (pairs : List (Nat × Nat × ℚ)) (i j : Nat) (σ : ℚ),
      (i, j, σ) ∈ pairs → i < rows.length → j < rows.length →
      (rows.getD i AIEnhancedCrawler.dummyAnn).created_at <
        (rows.getD j AIEnhancedCrawler.dummyAnn).created_at →
      ((pairs.foldl AIEnhancedCrawler.markPair rows).getD j
        AIEnhancedCrawler.dummyAnn).is_duplicate = true) := by
  constructor
  · exact fun rows i j σ hi hj hlt =>
      markPair_marks_later rows i j σ hi hj hlt
  · intro rows pairs
    induction pairs generalizing rows with
    | nil =>
      intro i j σ hmem
      exact absurd hmem (List.not_mem_nil _)
    | cons p rest ih =>
      intro i j σ hmem hi hj hlt
      rw [List.foldl_cons]
      rcases List.mem_cons.mp hmem with heq | hrest
      · subst heq
        exact foldl_markPair_isDup_mono rest _ j
          (markPair_marks_later rows i j σ hi hj hlt).1
      · refine ih _ i j σ hrest ?_ ?_ ?_
        · rw [markPair_length]; exact hi
        · rw [markPair_length]; exact hj
        · rw [markPair_created, markPair_created]; exact hlt

/-- Witness for C4's amended statement on the concrete three-row window. -/
theorem C4_witness :
    ((AIEnhancedCrawler.markPair rows3 (0, 1, 0.9)).getD 1
        AIEnhancedCrawler.dummyAnn).is_duplicate = true ∧
    dupOfVal ((AIEnhancedCrawler.markPair rows3 (0, 1, 0.9)).getD 1
        AIEnhancedCrawler.dummyAnn).confidence =
      some (Nat.repr (rows3.getD 0 AIEnhancedCrawler.dummyAnn).id) ∧
    confVal ((AIEnhancedCrawler.markPair rows3 (0, 1, 0.9)).getD 1
        AIEnhancedCrawler.dummyAnn).confidence "duplicate_similarity" =
      some 0.9 ∧
    (AIEnhancedCrawler.markPair rows3 (0, 1, 0.9)).getD 0
        AIEnhancedCrawler.dummyAnn =
      rows3.getD 0 AIEnhancedCrawler.dummyAnn :=
  C4_later_record_marked_duplicate.1 rows3 0 1 0.9 (by decide) (by decide)
    (by decide)

theorem getD_set_self {α : Type} (l : List α) (i : Nat) (r d : α)
    (hi : i < l.length) : (l.set i r).getD i d = r := by
  rw [List.getD_eq_getElem?_getD, List.getElem?_set, if_pos rfl, if_pos hi]
  rfl

theorem getD_set_ne {α : Type} (l : List α) (i : Nat) (r : α) (k : Nat)
    (d : α) (h : i ≠ k) : (l.set i r).getD k d = l.getD k d := by
  rw [List.getD_eq_getElem?_getD, List.getElem?_set, if_neg h,
    List.getD_eq_getElem?_getD]

theorem foldl_markPair_dupOf_inv
    (rows0 : List AIEnhancedCrawler.Announcement)
    (hids : ∀ x y, x < rows0.length → y < rows0.length →
      Nat.repr ((rows0.getD x AIEnhancedCrawler.dummyAnn).id) =
        Nat.repr ((rows0.getD y AIEnhancedCrawler.dummyAnn).id) → x = y) :
    ∀ (pairs : List (Nat × Nat × ℚ))
      (s : List AIEnhancedCrawler.Announcement),
      s.length = rows0.length →
      (∀ k, (s.getD k AIEnhancedCrawler.dummyAnn).created_at =
        (rows0.getD k AIEnhancedCrawler.dummyAnn).created_at) →
      (∀ k, (s.getD k AIEnhancedCrawler.dummyAnn).id =
        (rows0.getD k AIEnhancedCrawler.dummyAnn).id) →
      (∀ p ∈ pairs, p.1 < p.2.1) →
      (∀ x y, x < rows0.length → y < rows0.length →
        dupOfVal ((s.getD x AIEnhancedCrawler.dummyAnn).confidence) =
          some (Nat.repr ((rows0.getD y AIEnhancedCrawler.dummyAnn).id)) →
        (rows0.getD y AIEnhancedCrawler.dummyAnn).created_at <
          (rows0.getD x AIEnhancedCrawler.dummyAnn).created_at ∨
        ((rows0.getD y AIEnhancedCrawler.dummyAnn).created_at =
          (rows0.getD x AIEnhancedCrawler.dummyAnn).created_at ∧ x < y)) →
      ∀ x y, x < rows0.length → y < rows0.length →
        dupOfVal (((pairs.foldl AIEnhancedCrawler.markPair s).getD x
          AIEnhancedCrawler.dummyAnn).confidence) =
          some (Nat.repr ((rows0.getD y AIEnhancedCrawler.dummyAnn).id)) →
        (rows0.getD y AIEnhancedCrawler.dummyAnn).created_at <
          (rows0.getD x AIEnhancedCrawler.dummyAnn).created_at ∨
        ((rows0.getD y AIEnhancedCrawler.dummyAnn).created_at =
          (rows0.getD x AIEnhancedCrawler.dummyAnn).created_at ∧ x < y) := by
  intro pairs
  induction pairs with
  | nil =>
    intro s _ _ _ _ hinv x y hx hy h
    exact hinv x y hx hy h
  | cons p rest ih =>
    intro s hlen hcr hid hpairs hinv
    rw [List.foldl_cons]
    have hprest : ∀ q ∈ rest, q.1 < q.2.1 :=
      fun q hq => hpairs q (List.mem_cons_of_mem p hq)
    refine ih (AIEnhancedCrawler.markPair s p)
      (by rw [markPair_length]; exact hlen)
      (fun k => by rw [markPair_created]; exact hcr k)
      (fun k => by rw [markPair_id]; exact hid k)
      hprest ?_
    intro x y hx hy h
    unfold AIEnhancedCrawler.markPair at h
    by_cases hcond : p.1 < s.length ∧ p.2.1 < s.length
    · rw [if_pos (by simp [hcond.1, hcond.2])] at h
      dsimp only at h
      by_cases hlt : (s.getD p.1 AIEnhancedCrawler.dummyAnn).created_at <
          (s.getD p.2.1 AIEnhancedCrawler.dummyAnn).created_at
      · rw [if_pos hlt] at h
        by_cases hxj : p.2.1 = x
        · subst hxj
          rw [getD_set_self _ _ _ _ hcond.2, markDupRow_dupOf] at h
          have hinj : Nat.repr
              ((rows0.getD p.1 AIEnhancedCrawler.dummyAnn).id) =
              Nat.repr ((rows0.getD y AIEnhancedCrawler.dummyAnn).id) := by
            have hrepr := Option.some.inj h
            rw [hid p.1] at hrepr
            exact hrepr
          have hp1 : p.1 < rows0.length := by
            have := hcond.1
            omega
          have hy1 : p.1 = y := hids p.1 y hp1 hy hinj
          subst hy1
          left
          have h1 := hcr p.1
          have h2 := hcr p.2.1
          rw [h1, h2] at hlt
          exact hlt
        · rw [getD_set_ne _ _ _ _ _ hxj] at h
          exact hinv x y hx hy h
      · rw [if_neg hlt] at h
        by_cases hxi : p.1 = x
        · subst hxi
          rw [getD_set_self _ _ _ _ hcond.1, markDupRow_dupOf] at h
          have hinj : Nat.repr
              ((rows0.getD p.2.1 AIEnhancedCrawler.dummyAnn).id) =
              Nat.repr ((rows0.getD y AIEnhancedCrawler.dummyAnn).id) := by
            have hrepr := Option.some.inj h
            rw [hid p.2.1] at hrepr
            exact hrepr
          have hp2 : p.2.1 < rows0.length := by
            have := hcond.2
            omega
          have hy1 : p.2.1 = y := hids p.2.1 y hp2 hy hinj
          subst hy1
          have h1 := hcr p.1
          have h2 := hcr p.2.1
          rw [h1, h2] at hlt
          rcases lt_or_eq_of_le (not_lt.mp hlt) with hlt2 | heq
          · exact Or.inl hlt2
          · exact Or.inr ⟨heq, hpairs p (List.mem_cons_self p rest)⟩
        · rw [getD_set_ne _ _ _ _ _ hxi] at h
          exact hinv x y hx hy h
    · rw [if_neg (by
        simp only [Bool.and_eq_true, decide_eq_true_eq]
        exact hcond)] at h
      exact hinv x y hx hy h

/-- C5 (counterexample): on three mutually similar rows created at 0 < 1 <
2, row 1 ends the pass marked duplicate, yet row 2's duplicate-of points at
row 1, not at the cluster's earliest record (row 0): the pass uses
already-marked rows as comparison roots and produces a chain. -/
theorem C5_counterexample :
    ((AIEnhancedCrawler.detect_duplicates_pass simConst rows3).getD 1
      AIEnhancedCrawler.dummyAnn).is_duplicate = true ∧
    dupOfVal (((AIEnhancedCrawler.detect_duplicates_pass simConst
        rows3).getD 2 AIEnhancedCrawler.dummyAnn).confidence) =
      some (Nat.repr ((rows3.getD 1 AIEnhancedCrawler.dummyAnn).id)) ∧
    dupOfVal (((AIEnhancedCrawler.detect_duplicates_pass simConst
        rows3).getD 2 AIEnhancedCrawler.dummyAnn).confidence) ≠
      some (Nat.repr ((rows3.getD 0 AIEnhancedCrawler.dummyAnn).id)) := by
  refine ⟨by decide, by decide, by decide⟩

/-- C5 (amended): after any pass over an initially unmarked window (pairs
listed with `i < j`, row ids distinct), every stored duplicate-of reference
points to a row created strictly earlier — or created at the same instant
but listed later — so following duplicate-of links strictly decreases the
(created_at, reversed index) measure and no reference cycle can form.
Chains, however, do occur, and a record already marked duplicate can still
serve as a comparison root (see the counterexample). -/
theorem C5_duplicate_links_decrease
    (rows : List AIEnhancedCrawler.Announcement)
    (pairs : List (Nat × Nat × ℚ))
    (hpairs : ∀ p ∈ pairs, p.1 < p.2.1)
    (hclean : ∀ k,
      dupOfVal ((rows.getD k AIEnhancedCrawler.dummyAnn).confidence) = none)
    (hids : ∀ x y, x < rows.length → y < rows.length →
      Nat.repr ((rows.getD x AIEnhancedCrawler.dummyAnn).id) =
        Nat.repr ((rows.getD y AIEnhancedCrawler.dummyAnn).id) → x = y) :
    ∀ x y, x < rows.length → y < rows.length →
      dupOfVal (((pairs.foldl AIEnhancedCrawler.markPair rows).getD x
        AIEnhancedCrawler.dummyAnn).confidence) =
        some (Nat.repr ((rows.getD y AIEnhancedCrawler.dummyAnn).id)) →
      (rows.getD y AIEnhancedCrawler.dummyAnn).created_at <
        (rows.getD x AIEnhancedCrawler.dummyAnn).created_at ∨
      ((rows.getD y AIEnhancedCrawler.dummyAnn).created_at =
        (rows.getD x AIEnhancedCrawler.dummyAnn).created_at ∧ x < y) := by
  refine foldl_markPair_dupOf_inv rows hids pairs rows rfl
    (fun _ => rfl) (fun _ => rfl) hpairs ?_
  intro x y _ _ h
  rw [hclean x] at h
  exact absurd h (by simp)

/-- Witness for C5's amended statement on the concrete three-row window. -/
theorem C5_witness :
    (rows3.getD 1 AIEnhancedCrawler.dummyAnn).created_at <
      (rows3.getD 2 AIEnhancedCrawler.dummyAnn).created_at ∨
    ((rows3.getD 1 AIEnhancedCrawler.dummyAnn).created_at =
      (rows3.getD 2 AIEnhancedCrawler.dummyAnn).created_at ∧ 2 < 1) :=
  C5_duplicate_links_decrease rows3 rows3Pairs (by decide)
    (by
      intro k
      match k with
      | 0 => rfl
      | 1 => rfl
      | 2 => rfl
      | n + 3 => rfl)
    (by
      intro x y hx hy h
      have hx3 : x < 3 := by simpa [rows3] using hx
      have hy3 : y < 3 := by simpa [rows3] using hy
      interval_cases x <;> interval_cases y <;>
        first
          | rfl
          | exact absurd h (by decide))
    2 1 (by decide) (by decide) (by decide)

/-! ## Lemmas about the caps on categories and tags -/

theorem summary_keeps_categories (a : AIEnhancedCrawler.Announcement)
    (d : AIService.ExtractedData) (n : String) :
    (AIEnhancedCrawler.update_step_summary a d n).categories = a.categories
    := by
  unfold AIEnhancedCrawler.update_step_summary
  split
  · split <;> rfl
  · split <;> rfl

theorem summary_keeps_tags (a : AIEnhancedCrawler.Announcement)
    (d : AIService.ExtractedData) (n : String) :
    (AIEnhancedCrawler.update_step_summary a d n).tags = a.tags := by
  unfold AIEnhancedCrawler.update_step_summary
  split
  · split <;> rfl
  · split <;> rfl

theorem tagsStep_keeps_categories (a : AIEnhancedCrawler.Announcement)
    (d : AIService.ExtractedData) (n : String) :
    (AIEnhancedCrawler.update_step_tags a d n).categories = a.categories
    := by
  unfold AIEnhancedCrawler.update_step_tags
  by_cases h1 : ((a.tags.getD [] ++ d.tags).any fun v => !v.hashable) = true
  · rw [if_pos h1]
  · rw [if_neg h1]
    dsimp only
    by_cases h2 : (d.priority_score != 0) = true
    · simp only [h2, if_true]
      rw [summary_keeps_categories]
    · simp only [h2, if_false, Bool.false_eq_true]
      rw [summary_keeps_categories]

theorem tagsStep_tags_cap (a : AIEnhancedCrawler.Announcement)
    (d : AIService.ExtractedData) (n : String) :
    (AIEnhancedCrawler.update_step_tags a d n).tags = a.tags ∨
    ((AIEnhancedCrawler.update_step_tags a d n).tags.getD []).length ≤ 15
    := by
  unfold AIEnhancedCrawler.update_step_tags
  by_cases h1 : ((a.tags.getD [] ++ d.tags).any fun v => !v.hashable) = true
  · rw [if_pos h1]
    exact Or.inl rfl
  · rw [if_neg h1]
    dsimp only
    right
    by_cases h2 : (d.priority_score != 0) = true
    · simp only [h2, if_true]
      rw [summary_keeps_tags]
      simp only [Option.getD_some, List.length_take]
      omega
    · simp only [h2, if_false, Bool.false_eq_true]
      rw [summary_keeps_tags]
      simp only [Option.getD_some, List.length_take]
      omega

theorem mergeStep_categories_cap (a : AIEnhancedCrawler.Announcement)
    (d : AIService.ExtractedData) (n : String) :
    (AIEnhancedCrawler.update_step_merge a d n).categories = a.categories ∨
    ((AIEnhancedCrawler.update_step_merge a d n).categories.getD []).length
      ≤ 10 := by
  unfold AIEnhancedCrawler.update_step_merge
  by_cases h1 :
      ((a.categories.getD [] ++ d.categories).any fun v => !v.hashable)
        = true
  · rw [if_pos h1]
    exact Or.inl rfl
  · rw [if_neg h1]
    right
    rw [tagsStep_keeps_categories]
    simp only [Option.getD_some, List.length_take]
    omega

theorem mergeStep_tags_cap (a : AIEnhancedCrawler.Announcement)
    (d : AIService.ExtractedData) (n : String) :
    (AIEnhancedCrawler.update_step_merge a d n).tags = a.tags ∨
    ((AIEnhancedCrawler.update_step_merge a d n).tags.getD []).length ≤ 15
    := by
  unfold AIEnhancedCrawler.update_step_merge
  by_cases h1 :
      ((a.categories.getD [] ++ d.categories).any fun v => !v.hashable)
        = true
  · rw [if_pos h1]
    exact Or.inl rfl
  · rw [if_neg h1]
    exact tagsStep_tags_cap _ d n

theorem afterDl_categories_cap (a : AIEnhancedCrawler.Announcement)
    (d : AIService.ExtractedData) (n : String) :
    (AIEnhancedCrawler.update_after_deadline a d n).categories =
      a.categories ∨
    ((AIEnhancedCrawler.update_after_deadline a d n).categories.getD
      []).length ≤ 10 := by
  unfold AIEnhancedCrawler.update_after_deadline
  dsimp only
  split <;> split <;> exact mergeStep_categories_cap _ d n

theorem afterDl_tags_cap (a : AIEnhancedCrawler.Announcement)
    (d : AIService.ExtractedData) (n : String) :
    (AIEnhancedCrawler.update_after_deadline a d n).tags = a.tags ∨
    ((AIEnhancedCrawler.update_after_deadline a d n).tags.getD []).length
      ≤ 15 := by
  unfold AIEnhancedCrawler.update_after_deadline
  dsimp only
  split <;> split <;> exact mergeStep_tags_cap _ d n

theorem deadlineStep_categories_cap (a : AIEnhancedCrawler.Announcement)
    (d : AIService.ExtractedData) (n : String) :
    (AIEnhancedCrawler.update_step_deadline a d n).categories =
      a.categories ∨
    ((AIEnhancedCrawler.update_step_deadline a d n).categories.getD
      []).length ≤ 10 := by
  unfold AIEnhancedCrawler.update_step_deadline
  split
  · split
    · dsimp only
      split
      · rcases afterDl_categories_cap _ d n with h | h
        · left
          rw [h]
        · right
          exact h
      · exact afterDl_categories_cap a d n
    · exact Or.inl rfl
  · exact afterDl_categories_cap a d n

theorem deadlineStep_tags_cap (a : AIEnhancedCrawler.Announcement)
    (d : AIService.ExtractedData) (n : String) :
    (AIEnhancedCrawler.update_step_deadline a d n).tags = a.tags ∨
    ((AIEnhancedCrawler.update_step_deadline a d n).tags.getD []).length
      ≤ 15 := by
  unfold AIEnhancedCrawler.update_step_deadline
  split
  · split
    · dsimp only
      split
      · rcases afterDl_tags_cap _ d n with h | h
        · left
          rw [h]
        · right
          exact h
      · exact afterDl_tags_cap a d n
    · exact Or.inl rfl
  · exact afterDl_tags_cap a d n

theorem update_categories_cap (a : AIEnhancedCrawler.Announcement)
    (d : AIService.ExtractedData) (n : String) :
    (AIEnhancedCrawler.update_announcement_with_ai_data a d n).categories =
      a.categories ∨
    ((AIEnhancedCrawler.update_announcement_with_ai_data a d
      n).categories.getD []).length ≤ 10 := by
  unfold AIEnhancedCrawler.update_announcement_with_ai_data
  dsimp only
  split
  · rcases deadlineStep_categories_cap _ d n with h | h
    · left
      rw [h]
    · right
      exact h
  · exact deadlineStep_categories_cap a d n

theorem update_tags_cap (a : AIEnhancedCrawler.Announcement)
    (d : AIService.ExtractedData) (n : String) :
    (AIEnhancedCrawler.update_announcement_with_ai_data a d n).tags =
      a.tags ∨
    ((AIEnhancedCrawler.update_announcement_with_ai_data a d
      n).tags.getD []).length ≤ 15 := by
  unfold AIEnhancedCrawler.update_announcement_with_ai_data
  dsimp only
  split
  · rcases deadlineStep_tags_cap _ d n with h | h
    · left
      rw [h]
    · right
      exact h
  · exact deadlineStep_tags_cap a d n

/-- C6 (counterexample): merging five stored categories with five fresh
validated categories (and ten stored tags with ten fresh ones) yields a
record with 10 categories and 15 tags — the canonicalization/merge step
caps at 10 and 15, not at the claimed 5 and 10. -/
theorem C6_counterexample :
    ((AIEnhancedCrawler.update_announcement_with_ai_data fullCapsRow
        freshCapsData "T").categories.getD []).length = 10 ∧
    ((AIEnhancedCrawler.update_announcement_with_ai_data fullCapsRow
        freshCapsData "T").tags.getD []).length = 15 ∧
    ¬(10 ≤ 5) ∧ ¬(15 ≤ 10) := by
  refine ⟨by decide, by decide, by omega, by omega⟩

/-- C6 (amended): the AI validation step and the deterministic fallback do
enforce the claimed ranges — priority score in [1,10], every confidence
value in [0,1], at most 5 categories and 10 tags — but the
canonicalization/merge step instead truncates merged categories to 10 and
merged tags to 15 (or leaves them untouched when it aborts early), so
updated records may carry up to 10 categories and 15 tags. -/
theorem C6_ranges_and_caps (data : List (String × JVal))
    (content title : List Char) (a : AIEnhancedCrawler.Announcement)
    (d : AIService.ExtractedData) (now : String) :
    (1 ≤ (AIService.validate_extracted_data data).priority_score ∧
      (AIService.validate_extracted_data data).priority_score ≤ 10) ∧
    ((0 ≤ (AIService.validate_extracted_data data).confidence.dates ∧
        (AIService.validate_extracted_data data).confidence.dates ≤ 1) ∧
      (0 ≤ (AIService.validate_extracted_data data).confidence.eligibility ∧
        (AIService.validate_extracted_data data).confidence.eligibility
          ≤ 1) ∧
      (0 ≤ (AIService.validate_extracted_data data).confidence.overall ∧
        (AIService.validate_extracted_data data).confidence.overall ≤ 1)) ∧
    (AIService.validate_extracted_data data).categories.length ≤ 5 ∧
    (AIService.validate_extracted_data data).tags.length ≤ 10 ∧
    (1 ≤ (AIService.fallback_extraction content title).priority_score ∧
      (AIService.fallback_extraction content title).priority_score ≤ 10) ∧
    ((0 ≤ (AIService.fallback_extraction content title).confidence.dates ∧
        (AIService.fallback_extraction content title).confidence.dates
          ≤ 1) ∧
      (0 ≤ (AIService.fallback_extraction content
          title).confidence.eligibility ∧
        (AIService.fallback_extraction content title).confidence.eligibility
          ≤ 1) ∧
      (0 ≤ (AIService.fallback_extraction content
          title).confidence.overall ∧
        (AIService.fallback_extraction content title).confidence.overall
          ≤ 1)) ∧
    (AIService.fallback_extraction content title).categories.length ≤ 5 ∧
    (AIService.fallback_extraction content title).tags.length ≤ 10 ∧
    ((AIEnhancedCrawler.update_announcement_with_ai_data a d
        now).categories = a.categories ∨
      ((AIEnhancedCrawler.update_announcement_with_ai_data a d
        now).categories.getD []).length ≤ 10) ∧
    ((AIEnhancedCrawler.update_announcement_with_ai_data a d now).tags =
        a.tags ∨
      ((AIEnhancedCrawler.update_announcement_with_ai_data a d
        now).tags.getD []).length ≤ 15) := by
  refine ⟨?_, ?_, ?_, ?_, ?_, fallback_conf_bounds content title, ?_, ?_,
    update_categories_cap a d now, update_tags_cap a d now⟩
  · rw [validate_priority_proj]
    exact validate_priority_bounds data
  · rw [validate_confidence_proj]
    exact validate_conf_bounds data
  · rw [validate_categories_proj]
    exact validate_categories_cap data
  · rw [validate_tags_proj]
    exact validate_tags_cap data
  · constructor
    · exact le_min (le_max_right _ 1) (by norm_num)
    · exact min_le_right _ _
  · exact (List.length_take_le _ _)
  · calc (AIService.fallback_extraction content title).tags.length
        ≤ 5 := List.length_take_le _ _
      _ ≤ 10 := by omega

/-! ## C7: batch counts -/

/-- C7 (counterexample): a batch of 10 candidate links of which 3 fail
extraction yields `crawled_count = 7`, not the claimed 10:
`crawled_count = len(notifications)` counts only the successfully
extracted announcements.  `saved_count = 7` and `success = true` do hold. -/
theorem C7_counterexample :
    tenCandidates.length = 10 ∧
    (tenCandidates.filter fun c => c.isNone).length = 3 ∧
    ((ImprovedSSCCrawler.run_crawl
        [ImprovedSSCCrawler.PageFetch.page tenCandidates] []
        0).1).crawled_count = 7 ∧
    ((ImprovedSSCCrawler.run_crawl
        [ImprovedSSCCrawler.PageFetch.page tenCandidates] []
        0).1).saved_count = 7 ∧
    ((ImprovedSSCCrawler.run_crawl
        [ImprovedSSCCrawler.PageFetch.page tenCandidates] []
        0).1).success = true ∧
    (7 : Nat) ≠ 10 := by
  refine ⟨by decide, by decide, by decide, by decide, by decide, by decide⟩

/-- C7 (amended): per-item extraction failures are isolated — whenever at
least one candidate extracts, the batch result has `success = true`,
`crawled_count` equal to the number of successfully extracted announcements
(not of all attempted links), `saved_count ≤ crawled_count`, and on a fresh
database `saved_count = crawled_count`. -/
theorem C7_per_item_failure_isolation
    (fetches : List ImprovedSSCCrawler.PageFetch)
    (db : List ImprovedSSCCrawler.AnnData) (now : Int)
    (h : ImprovedSSCCrawler.liveAnnouncements fetches ≠ []) :
    ((ImprovedSSCCrawler.run_crawl fetches db now).1).success = true ∧
    ((ImprovedSSCCrawler.run_crawl fetches db now).1).crawled_count =
      (ImprovedSSCCrawler.liveAnnouncements fetches).length ∧
    ((ImprovedSSCCrawler.run_crawl fetches db now).1).saved_count ≤
      (ImprovedSSCCrawler.liveAnnouncements fetches).length ∧
    (db = [] →
      ((ImprovedSSCCrawler.run_crawl fetches db now).1).saved_count =
        (ImprovedSSCCrawler.liveAnnouncements fetches).length) := by
  have hemp : (ImprovedSSCCrawler.liveAnnouncements fetches).isEmpty = false
    := by
    cases he : ImprovedSSCCrawler.liveAnnouncements fetches with
    | nil => exact absurd he h
    | cons a t => rfl
  have hcrawl : ImprovedSSCCrawler.crawl_improved_notifications fetches now =
      ImprovedSSCCrawler.liveAnnouncements fetches := by
    unfold ImprovedSSCCrawler.crawl_improved_notifications
    dsimp only
    rw [hemp]
    rfl
  unfold ImprovedSSCCrawler.run_crawl
  rw [hcrawl]
  refine ⟨rfl, rfl, ?_, ?_⟩
  · dsimp only
    rw [save_spec]
    exact List.length_filter_le _ _
  · intro hdb
    subst hdb
    dsimp only
    rw [save_spec]
    have : (ImprovedSSCCrawler.liveAnnouncements fetches).filter
        (fun a => !([] : List ImprovedSSCCrawler.AnnData).any
          (fun s => s.source_url == a.source_url)) =
        ImprovedSSCCrawler.liveAnnouncements fetches :=
      List.filter_eq_self.mpr (fun a _ => rfl)
    rw [this]

/-- Witness for C7's amended statement on the concrete ten-candidate
batch. -/
theorem C7_witness :
    ((ImprovedSSCCrawler.run_crawl
        [ImprovedSSCCrawler.PageFetch.page tenCandidates] [] 0).1).success
      = true ∧
    ((ImprovedSSCCrawler.run_crawl
        [ImprovedSSCCrawler.PageFetch.page tenCandidates] []
        0).1).crawled_count =
      (ImprovedSSCCrawler.liveAnnouncements
        [ImprovedSSCCrawler.PageFetch.page tenCandidates]).length ∧
    ((ImprovedSSCCrawler.run_crawl
        [ImprovedSSCCrawler.PageFetch.page tenCandidates] []
        0).1).saved_count ≤
      (ImprovedSSCCrawler.liveAnnouncements
        [ImprovedSSCCrawler.PageFetch.page tenCandidates]).length ∧
    (([] : List ImprovedSSCCrawler.AnnData) = [] →
      ((ImprovedSSCCrawler.run_crawl
          [ImprovedSSCCrawler.PageFetch.page tenCandidates] []
          0).1).saved_count =
        (ImprovedSSCCrawler.liveAnnouncements
          [ImprovedSSCCrawler.PageFetch.page tenCandidates]).length) :=
  C7_per_item_failure_isolation
    [ImprovedSSCCrawler.PageFetch.page tenCandidates] [] 0
    (List.ne_nil_of_length_pos (by decide))

/-! ## C8: coordinator boundary -/

theorem run_all_foldl_spec (cs : List CrawlerManager.Crawler) :
    ∀ acc : Nat × Nat × Nat × List CrawlerManager.ManagerEntry,
      (cs.foldl CrawlerManager.runStep acc).2.2.2 =
        acc.2.2.2 ++ cs.map CrawlerManager.entryOf ∧
      (cs.foldl CrawlerManager.runStep acc).1 +
          (cs.foldl CrawlerManager.runStep acc).2.1 =
        acc.1 + acc.2.1 + cs.length := by
  induction cs with
  | nil =>
    intro acc
    simp
  | cons c t ih =>
    intro acc
    rw [List.foldl_cons, List.map_cons]
    have hstep : (CrawlerManager.runStep acc c).2.2.2 =
        acc.2.2.2 ++ [CrawlerManager.entryOf c] ∧
        (CrawlerManager.runStep acc c).1 + (CrawlerManager.runStep acc c).2.1
          = acc.1 + acc.2.1 + 1 := by
      unfold CrawlerManager.runStep CrawlerManager.entryOf
      split
      · next r heq =>
        by_cases hs : r.success = true
        · rw [if_pos hs]
          refine ⟨rfl, ?_⟩
          dsimp only
          omega
        · rw [if_neg hs]
          refine ⟨rfl, ?_⟩
          dsimp only
          omega
      · refine ⟨rfl, ?_⟩
        dsimp only
        omega
    rcases ih (CrawlerManager.runStep acc c) with ⟨ih1, ih2⟩
    constructor
    · rw [ih1, hstep.1, List.append_assoc]
      rfl
    · rw [ih2, hstep.2, List.length_cons]
      omega

/-- C8: the Ingestion Coordinator's boundary is total.  `run_all_crawlers`
always returns a structured summary with `success = true`, one result entry
per registered crawler (siblings keep running past a raising crawler), the
success/failure tallies add up, and a crawler whose `run_crawl` raises is
recorded as a failure entry carrying its error; `run_single_crawler`
likewise returns a structured failure dictionary for an unknown name or a
raising crawler instead of propagating. -/
theorem C8_coordinator_never_propagates
    (cs : List CrawlerManager.Crawler) (n : String) :
    (CrawlerManager.run_all_crawlers cs).success = true ∧
    (CrawlerManager.run_all_crawlers cs).results.length = cs.length ∧
    (CrawlerManager.run_all_crawlers cs).successful_crawls +
      (CrawlerManager.run_all_crawlers cs).failed_crawls = cs.length ∧
    (∀ k, k < cs.length → ∀ e,
      (cs.getD k dummyCrawler).run_crawl = CrawlerManager.RunOutcome.raises e
      →
      ((CrawlerManager.run_all_crawlers cs).results.getD k
        dummyEntry).success = false ∧
      ((CrawlerManager.run_all_crawlers cs).results.getD k
        dummyEntry).error = some e) ∧
    (CrawlerManager.get_crawler_by_name cs n = none →
      CrawlerManager.run_single_crawler cs n =
        { success := false, source := none, saved_count := none,
          error := some ("Crawler " ++ n ++ " not found") }) ∧
    (∀ c, CrawlerManager.get_crawler_by_name cs n = some c → ∀ e,
      c.run_crawl = CrawlerManager.RunOutcome.raises e →
      CrawlerManager.run_single_crawler cs n =
        { success := false, source := some n, saved_count := none,
          error := some e }) := by
  have hres : (CrawlerManager.run_all_crawlers cs).results =
      cs.map CrawlerManager.entryOf := by
    unfold CrawlerManager.run_all_crawlers
    dsimp only
    rw [(run_all_foldl_spec cs (0, 0, 0, [])).1]
    rfl
  have hcount : (CrawlerManager.run_all_crawlers cs).successful_crawls +
      (CrawlerManager.run_all_crawlers cs).failed_crawls = cs.length := by
    unfold CrawlerManager.run_all_crawlers
    dsimp only
    rw [(run_all_foldl_spec cs (0, 0, 0, [])).2]
    simp
  refine ⟨rfl, ?_, hcount, ?_, ?_, ?_⟩
  · rw [hres, List.length_map]
  · intro k hk e he
    rw [hres]
    have hm : (cs.map CrawlerManager.entryOf).getD k dummyEntry =
        CrawlerManager.entryOf (cs.getD k dummyCrawler) := by
      rw [List.getD_eq_getElem?_getD, List.getElem?_map,
        List.getElem?_eq_getElem hk, List.getD_eq_getElem?_getD,
        List.getElem?_eq_getElem hk]
      rfl
    rw [hm]
    unfold CrawlerManager.entryOf
    rw [he]
    exact ⟨rfl, rfl⟩
  · intro hnone
    unfold CrawlerManager.run_single_crawler
    rw [hnone]
  · intro c hc e he
    unfold CrawlerManager.run_single_crawler
    rw [hc]
    dsimp only
    rw [he]

/-- Witness for C8 on a concrete registry with one raising crawler. -/
theorem C8_witness :
    ((CrawlerManager.run_all_crawlers
        [crashingCrawler, okCrawler]).results.getD 0 dummyEntry).success
      = false ∧
    ((CrawlerManager.run_all_crawlers
        [crashingCrawler, okCrawler]).results.getD 0 dummyEntry).error
      = some "network down" :=
  (C8_coordinator_never_propagates [crashingCrawler, okCrawler]
    "Boom").2.2.2.1 0 (by decide) "network down" rfl

/-! ## C9: deadline extraction -/

/-- C9 (counterexample): a source text can contain the substring
`Last date: 15/03/2024` and still not yield 2024-03-15 — `re.findall`
returns the *first* match of the pattern, so an earlier `last date:`
occurrence wins.  Here the result is 2025-01-01. -/
theorem C9_counterexample :
    containsTxt
      ("last date: 01-01-2025 and Last date: 15/03/2024".toList)
      ("Last date: 15/03/2024".toList) = true ∧
    ImprovedSSCCrawler.extract_deadline
      ("last date: 01-01-2025 and Last date: 15/03/2024".toList) =
      some ⟨2025, 1, 1⟩ ∧
    (⟨2025, 1, 1⟩ : PDate) ≠ ⟨2024, 3, 15⟩ := by
  refine ⟨by decide, by decide, by decide⟩

/-- C9 (amended): the text `Last date: 15/03/2024` itself extracts to the
application deadline 2024-03-15, and more generally any source text whose
*first* match of the first deadline pattern is `15/03/2024` does — the
ordered pattern list is tried first-match-wins, and the day-first numeric
parse maps `15/03/2024` to 2024-03-15. -/
theorem C9_deadline_extraction_first_match :
    ImprovedSSCCrawler.extract_deadline ("Last date: 15/03/2024".toList) =
      some ⟨2024, 3, 15⟩ ∧
    (∀ text : List Char,
      findFirst [RPiece.lit ("last date".toList),
          RPiece.cls isColonSpace 1 none] ImprovedSSCCrawler.deadlineCap
          text = some ("15/03/2024".toList) →
      ImprovedSSCCrawler.extract_deadline text = some ⟨2024, 3, 15⟩) := by
  constructor
  · decide
  · intro text h
    unfold ImprovedSSCCrawler.extract_deadline
      ImprovedSSCCrawler.deadlineKeywords
    simp only [List.map_cons, List.map_nil, List.findSome?_cons]
    rw [h]
    rfl

/-- Witness for C9's amended clause at the scenario text itself. -/
theorem C9_witness :
    ImprovedSSCCrawler.extract_deadline ("Last date: 15/03/2024".toList) =
      some ⟨2024, 3, 15⟩ :=
  C9_deadline_extraction_first_match.2 ("Last date: 15/03/2024".toList)
    (by decide)

/-! ## C10: sample-data fallback -/

/-- C10: whenever a crawl finds no live announcements (every URL fetch
fails or nothing extracts), `crawl_improved_notifications` substitutes the
hardcoded sample list — non-empty, with fixed source URLs,
`is_verified = true` and overall confidence 0.90 — and on a first
execution (empty database) `run_crawl` persists them and reports
`saved_count = 2 > 0`. -/
theorem C10_sample_data_fallback
    (fetches : List ImprovedSSCCrawler.PageFetch) (now : Int)
    (db : List ImprovedSSCCrawler.AnnData)
    (h : ImprovedSSCCrawler.liveAnnouncements fetches = []) :
    ImprovedSSCCrawler.crawl_improved_notifications fetches now =
      ImprovedSSCCrawler.get_sample_announcements now ∧
    ImprovedSSCCrawler.get_sample_announcements now ≠ [] ∧
    (∀ a ∈ ImprovedSSCCrawler.get_sample_announcements now,
      a.is_verified = true ∧ a.confidence.overall = 0.90 ∧
      (a.source_url = "https://ssc.nic.in/notification/cgl-2024" ∨
        a.source_url = "https://ssc.nic.in/notification/chsl-2024")) ∧
    (db = [] →
      ((ImprovedSSCCrawler.run_crawl fetches db now).1).saved_count = 2 ∧
      0 < ((ImprovedSSCCrawler.run_crawl fetches db now).1).saved_count)
    := by
  have hcrawl : ImprovedSSCCrawler.crawl_improved_notifications fetches now =
      ImprovedSSCCrawler.get_sample_announcements now := by
    unfold ImprovedSSCCrawler.crawl_improved_notifications
    dsimp only
    rw [h]
    rfl
  refine ⟨hcrawl, by simp [ImprovedSSCCrawler.get_sample_announcements],
    ?_, ?_⟩
  · intro a ha
    rcases List.mem_cons.mp ha with heq | ha2
    · subst heq
      exact ⟨rfl, rfl, Or.inl rfl⟩
    · rcases List.mem_cons.mp ha2 with heq | ha3
      · subst heq
        exact ⟨rfl, rfl, Or.inr rfl⟩
      · exact absurd ha3 (List.not_mem_nil a)
  · intro hdb
    subst hdb
    unfold ImprovedSSCCrawler.run_crawl
    rw [hcrawl]
    refine ⟨rfl, ?_⟩
    have h2 : (ImprovedSSCCrawler.save_announcements []
        (ImprovedSSCCrawler.get_sample_announcements now)).2 = 2 := rfl
    dsimp only
    omega

/-- Witness for C10: a run in which every fetch fails persists the two
samples. -/
theorem C10_witness :
    ((ImprovedSSCCrawler.run_crawl [ImprovedSSCCrawler.PageFetch.fail] []
      0).1).saved_count = 2 :=
  ((C10_sample_data_fallback [ImprovedSSCCrawler.PageFetch.fail] 0 []
    rfl).2.2.2 rfl).1
